import Mathlib

/-!
# Verification of the Weather MCP server core (`src/week3/server/main.py`)

This file gives a shallow embedding, in Lean 4, of the weather-data pipeline of
the repository: the retrying HTTP fetcher (`fetch_with_retry`), the location
resolver (`get_coordinates`), the response formatters (`format_temperature`,
`format_weather_response`, `format_forecast_response`,
`format_air_quality_response`) and the tool dispatcher (`call_tool`).

Modelling conventions:

* Python floats are modelled exactly: a `float` value is the rational number
  denoted by an IEEE-754 binary64 datum, and every arithmetic operation rounds
  its exact rational result back to binary64 (round to nearest, ties to even)
  via `roundToF64`.  Overflow to infinity and subnormal underflow are outside
  the range exercised here and are not modelled.
* The Python `str`/`repr` of a float (shortest round-trip decimal) and
  `datetime.fromtimestamp(..).strftime(..)` (local-timezone dependent) are
  abstracted as parameters `floatRepr` and `fmtTime` of the formatters; no
  claim depends on their output.
* JSON payloads are the untyped type `J`; Python operations that can raise
  (`d[k]`, `d.get(..)` on a non-dict, arithmetic on non-numbers) live in
  `Except PyExc`, so "the code raises" is `.error e` and "returns" is `.ok v`.
* The HTTP client is abstracted as the sequence of outcomes the upstream
  produces: `attempt ↦ HttpOutcome`, keyed by the request URL in `call_tool`.
-/

set_option maxRecDepth 100000

namespace WeatherMCP

/-! ## String containment -/

/-- Predicate `startsWithChars needle hay`: `needle` is a prefix of `hay` (on char lists). -/
def startsWithChars : List Char → List Char → Bool
  | [], _ => true
  | _ :: _, [] => false
  | a :: as, b :: bs => a == b && startsWithChars as bs

/-- Predicate `hasSubChars needle hay`: `needle` occurs contiguously inside `hay`. -/
def hasSubChars (needle : List Char) : List Char → Bool
  | [] => needle.isEmpty
  | c :: rest => startsWithChars needle (c :: rest) || hasSubChars needle rest

/-- Predicate `strContains hay needle`: the string `needle` occurs inside `hay`. -/
def strContains (hay needle : String) : Bool :=
  hasSubChars needle.data hay.data

/-- Python `str.strip()`-style whitespace test (ASCII subset; the strings
stripped in this development only carry `'\n'` at their ends). -/
def isPySpace (c : Char) : Bool :=
  c = ' ' || c = '\t' || c = '\n' || c = '\r' || c = '\x0b' || c = '\x0c'

/-- Python `s.strip()`. -/
def pyStrip (s : String) : String :=
  String.mk (((s.data.dropWhile isPySpace).reverse.dropWhile isPySpace).reverse)

/-! ## Exact model of IEEE-754 binary64 ("Python float") arithmetic -/

/-- Number of bits of `n` (`0 ↦ 0`), via an explicit fuel so that the kernel
can evaluate it.  `2 ^ (bitlen n - 1) ≤ n < 2 ^ bitlen n` for `n > 0`. -/
def bitlenAux : Nat → Nat → Nat
  | 0, _ => 0
  | _ + 1, 0 => 0
  | fuel + 1, n + 1 => bitlenAux fuel ((n + 1) / 2) + 1

/-- Bit length of a natural number. -/
def bitlen (n : Nat) : Nat := bitlenAux n n

/-- Round a rational to the nearest integer, ties to even. -/
def roundHalfEven (q : ℚ) : ℤ :=
  let f : ℤ := ⌊q⌋
  let r : ℚ := q - f
  if r < 1/2 then f
  else if 1/2 < r then f + 1
  else if f % 2 = 0 then f else f + 1

/-- Integer logarithm `⌊log₂ a⌋` for a positive rational `a`: the unique `e` with
`2 ^ e ≤ a < 2 ^ (e + 1)`, computed from the bit lengths of numerator and
denominator followed by a correction step. -/
def ilog2q (a : ℚ) : ℤ :=
  let e0 : ℤ := (bitlen a.num.natAbs : ℤ) - (bitlen a.den : ℤ)
  if a < (2 : ℚ) ^ e0 then e0 - 1
  else if a < (2 : ℚ) ^ (e0 + 1) then e0 else e0 + 1

/-- Round an exact rational to the nearest IEEE-754 binary64 value
(round to nearest, ties to even), returned as the exact rational the double
denotes.  Models normal finite doubles; overflow/subnormals are outside the
range used by this development. -/
def roundToF64 (q : ℚ) : ℚ :=
  if q = 0 then 0
  else
    let a : ℚ := |q|
    let e : ℤ := ilog2q a
    let m : ℤ := roundHalfEven (a * (2 : ℚ) ^ (52 - e))
    let v : ℚ := (m : ℚ) * (2 : ℚ) ^ (e - 52)
    if q < 0 then -v else v

/-- Python float subtraction: exact subtraction followed by binary64 rounding. -/
def fSub (a b : ℚ) : ℚ := roundToF64 (a - b)

/-- Python float addition. -/
def fAdd (a b : ℚ) : ℚ := roundToF64 (a + b)

/-- Python float multiplication. -/
def fMul (a b : ℚ) : ℚ := roundToF64 (a * b)

/-- Python float (true) division. -/
def fDiv (a b : ℚ) : ℚ := roundToF64 (a / b)

/-- Decimal digits of a natural number (model of the Python `str(int)` on `ℕ`). -/
def natDigits (n : Nat) : String := toString n

/-- Zero-pad `s` on the left to length `len`. -/
def padZeroes (len : Nat) (s : String) : String :=
  String.mk (List.replicate (len - s.length) '0') ++ s

/-- Fixed-point formatting of a nonnegative rational with `prec` digits after
the decimal point, rounding to nearest with ties to even — the semantics of
CPython `format(x, \x27.Nf\x27)` on the exact value of the double `x`. -/
def fmtFixedNN (prec : Nat) (q : ℚ) : String :=
  let n : Nat := (roundHalfEven (q * (10 : ℚ) ^ prec)).toNat
  if prec = 0 then natDigits n
  else natDigits (n / 10 ^ prec) ++ "." ++ padZeroes prec (natDigits (n % 10 ^ prec))

/-- Formatting `f"{q:.{prec}f}"` on the exact value `q` of a double: sign of the value,
then fixed-point rendering of its magnitude. -/
def fmtFixed (prec : Nat) (q : ℚ) : String :=
  if q < 0 then "-" ++ fmtFixedNN prec (-q) else fmtFixedNN prec q

/-! ## Python / JSON values and exceptions -/

/-- Untyped JSON-ish Python values, as handled by the server: `None`, `bool`,
`int`, `float` (stored as the exact rational value of the binary64 datum),
`str`, `list`, `dict` (association list, first binding wins). -/
inductive J where
  | null
  | b (v : Bool)
  | i (v : Int)
  | f (v : ℚ)
  | s (v : String)
  | arr (elems : List J)
  | obj (fields : List (String × J))

/-- The Python exceptions the embedded code can raise.  Each carries the
`str(e)` rendering used by the handlers in `call_tool`. -/
inductive PyExc where
  | weatherAPIError (msg : String)
  | attributeError (msg : String)
  | typeError (msg : String)
  | keyError (msg : String)
  | indexError (msg : String)

/-- Rendering `str(e)` of an exception. -/
def PyExc.text : PyExc → String
  | .weatherAPIError m => m
  | .attributeError m => m
  | .typeError m => m
  | .keyError m => m
  | .indexError m => m

/-- Python type name of a value (for exception messages). -/
def pyTypeName : J → String
  | .null => "NoneType"
  | .b _ => "bool"
  | .i _ => "int"
  | .f _ => "float"
  | .s _ => "str"
  | .arr _ => "list"
  | .obj _ => "dict"

/-- First-match lookup in the association list of a dict. -/
def jLookup (kvs : List (String × J)) (k : String) : Option J :=
  match kvs with
  | [] => none
  | (k', v) :: rest => if k' = k then some v else jLookup rest k

/-- Python truthiness of a value. -/
def jTruthy : J → Bool
  | .null => false
  | .b v => v
  | .i n => n != 0
  | .f q => q.num != 0
  | .s v => !v.isEmpty
  | .arr l => !l.isEmpty
  | .obj l => !l.isEmpty

/-- Python `v.get(k, dflt)`: defaulting field access, `AttributeError` when
`v` is not a dict. -/
def jGetD (v : J) (k : String) (dflt : J) : Except PyExc J :=
  match v with
  | .obj kvs => .ok ((jLookup kvs k).getD dflt)
  | _ => .error (.attributeError
      ("\x27" ++ pyTypeName v ++ "\x27 object has no attribute \x27get\x27"))

/-- Python `v[k]` for a string key: `KeyError` when absent, `TypeError` when
`v` is not subscriptable by strings. -/
def jItemStr (v : J) (k : String) : Except PyExc J :=
  match v with
  | .obj kvs =>
    match jLookup kvs k with
    | some x => .ok x
    | none => .error (.keyError ("\x27" ++ k ++ "\x27"))
  | .arr _ => .error (.typeError "list indices must be integers or slices, not str")
  | _ => .error (.typeError ("\x27" ++ pyTypeName v ++ "\x27 object is not subscriptable"))

/-- Python `v[n]` for a (nonnegative) integer index. -/
def jItemNat (v : J) (n : Nat) : Except PyExc J :=
  match v with
  | .arr l =>
    match l.get? n with
    | some x => .ok x
    | none => .error (.indexError "list index out of range")
  | .s str =>
    match str.data.get? n with
    | some c => .ok (.s (String.mk [c]))
    | none => .error (.indexError "string index out of range")
  | .obj _ => .error (.keyError (toString n))
  | _ => .error (.typeError ("\x27" ++ pyTypeName v ++ "\x27 object is not subscriptable"))

/-- Python value equality against a string literal (`v == "lit"`): total,
true only for an equal `str`. -/
def isStrEq (v : J) (lit : String) : Bool :=
  match v with
  | .s t => t = lit
  | _ => false

/-- Python numeric equality against an int literal, as used by dict key
lookup: `2.0` and `True` compare equal to the int keys `2` and `1`. -/
def pyEqInt (v : J) (n : Int) : Bool :=
  match v with
  | .i m => m = n
  | .f q => q.den = 1 && q.num = n
  | .b bv => (if bv then (1 : Int) else 0) = n
  | _ => false

/-- Python `k not in v` for a string `k`: key test on dicts, membership on
lists, substring test on strings, `TypeError` otherwise. -/
def jNotIn (k : String) (v : J) : Except PyExc Bool :=
  match v with
  | .obj kvs => .ok (jLookup kvs k).isNone
  | .arr l => .ok (!l.any (fun x => isStrEq x k))
  | .s str => .ok (!strContains str k)
  | _ => .error (.typeError ("argument of type \x27" ++ pyTypeName v ++ "\x27 is not iterable"))

/-- Coerce a value to a Python float for arithmetic / `%.Nf` formatting:
ints and bools convert (ints beyond 2⁵³ round, like the Python `float(int)`),
floats pass through, everything else raises `TypeError`.  (CPython formats an
int operand of `:.Nf` without the float detour; the two agree on every value
below 2⁵³, which covers this development.) -/
def jToFloat (v : J) : Except PyExc ℚ :=
  match v with
  | .i n => .ok (roundToF64 (n : ℚ))
  | .f q => .ok q
  | .b bv => .ok (if bv then 1 else 0)
  | _ => .error (.typeError ("unsupported operand type: \x27" ++ pyTypeName v ++ "\x27"))

/-- Join strings with `", "`. -/
def joinComma : List String → String
  | [] => ""
  | [x] => x
  | x :: rest => x ++ ", " ++ joinComma rest

/-- Python `repr` of a value, fuelled so the recursion through nested lists is
structural.  Floats are rendered by the abstract `flRepr` (the CPython
shortest-round-trip repr); string escaping inside containers is simplified to
plain quoting, which no claim observes. -/
def pyReprFuel (flRepr : ℚ → String) : Nat → J → String
  | _, .null => "None"
  | _, .b v => if v then "True" else "False"
  | _, .i n => toString n
  | _, .f q => flRepr q
  | _, .s str => "\x27" ++ str ++ "\x27"
  | 0, .arr _ => "[...]"
  | fuel + 1, .arr l => "[" ++ joinComma (l.map (pyReprFuel flRepr fuel)) ++ "]"
  | 0, .obj _ => "\x7b...\x7d"
  | fuel + 1, .obj kvs =>
    "\x7b" ++
      joinComma (kvs.map (fun kv => "\x27" ++ kv.1 ++ "\x27: " ++ pyReprFuel flRepr fuel kv.2))
      ++ "\x7d"

/-- Python `str(v)` as interpolated by an f-string.  The fuel only bounds the
nesting depth of containers (recursion stops at scalars); 2³² exceeds the
depth of any value in this development, so the rendering is exact here. -/
def pyStr (flRepr : ℚ → String) (v : J) : String :=
  match v with
  | .s str => str
  | _ => pyReprFuel flRepr 4294967296 v

/-! ## HTTP fetcher with retry (`fetch_with_retry`, main.py lines 56-110) -/

/-- Outcome of one GET attempt, as classified by the `except` clauses of
`fetch_with_retry`: a 2xx response with parsed JSON body, a non-2xx status
(`httpx.HTTPStatusError` from `raise_for_status`), a timeout
(`httpx.TimeoutException`), or another network error (`httpx.RequestError`). -/
inductive HttpOutcome where
  | success (body : J)
  | statusErr (code : Int) (body : String)
  | timeout
  | reqError (msg : String)

/-- Result of `fetch_with_retry`: the returned JSON or raised exception,
the total seconds passed to `asyncio.sleep`, and the number of GET attempts
performed. -/
structure FetchResult where
  result : Except PyExc J
  sleepSecs : Nat
  attemptsUsed : Nat

/-- The `WeatherAPIError` message for HTTP 401. -/
def authErrMsg : String :=
  "Invalid API key. Please check your OPENWEATHER_API_KEY environment variable."

/-- The `WeatherAPIError` message for HTTP 404. -/
def notFoundErrMsg : String :=
  "Location not found. Please check the city name or coordinates."

/-- The `WeatherAPIError` message for HTTP 429 with no attempts left. -/
def rateLimitErrMsg : String :=
  "Rate limit exceeded. Please try again later or upgrade your API plan."

/-- The `WeatherAPIError` message for a timeout with no attempts left. -/
def timeoutErrMsg : String := "Request timed out after multiple retries."

/-- The `WeatherAPIError` message of the unreachable fall-through after the loop. -/
def exhaustedErrMsg : String := "Failed to fetch data after multiple retries"

/-- The retry loop of `fetch_with_retry`, indexed by the number of loop
iterations left, `remaining = max_retries - attempt` (so the source guard
`attempt < max_retries - 1` is `remaining ≥ 2`, i.e. `rem ≥ 1` below after
peeling one iteration).  `upstream attempt` is the outcome of the attempt-th
GET. -/
def fetchAux (upstream : Nat → HttpOutcome) : Nat → Nat → FetchResult
  | 0, _ => ⟨.error (.weatherAPIError exhaustedErrMsg), 0, 0⟩
  | rem + 1, attempt =>
    match upstream attempt with
    | .success body => ⟨.ok body, 0, 1⟩
    | .statusErr code body =>
      if code = 401 then ⟨.error (.weatherAPIError authErrMsg), 0, 1⟩
      else if code = 404 then ⟨.error (.weatherAPIError notFoundErrMsg), 0, 1⟩
      else if code = 429 then
        if rem ≥ 1 then
          let r := fetchAux upstream rem (attempt + 1)
          ⟨r.result, 2 ^ attempt + r.sleepSecs, r.attemptsUsed + 1⟩
        else ⟨.error (.weatherAPIError rateLimitErrMsg), 0, 1⟩
      else ⟨.error (.weatherAPIError ("HTTP error " ++ toString code ++ ": " ++ body)), 0, 1⟩
    | .timeout =>
      if rem ≥ 1 then
        let r := fetchAux upstream rem (attempt + 1)
        ⟨r.result, 1 + r.sleepSecs, r.attemptsUsed + 1⟩
      else ⟨.error (.weatherAPIError timeoutErrMsg), 0, 1⟩
    | .reqError m => ⟨.error (.weatherAPIError ("Network error: " ++ m)), 0, 1⟩

/-- Model of `fetch_with_retry(client, url, params, max_retries)`: run the retry loop
from attempt 0. -/
def fetch_with_retry (upstream : Nat → HttpOutcome) (maxRetries : Nat := 3) : FetchResult :=
  fetchAux upstream maxRetries 0

/-! ## Response formatters (main.py lines 113-226) -/

/-- The exact rational value of the Python float literal `273.15`. -/
def lit273_15 : ℚ := roundToF64 (27315 / 100)

/-- Model of `format_temperature(kelvin, unit)` (main.py lines 113-120): convert a
kelvin value to the requested unit and render it with one decimal place and
the unit suffix; any unit other than `"fahrenheit"` and `"kelvin"` takes the
default celsius branch. -/
def format_temperature (kelvin : J) (unit : J) : Except PyExc String :=
  if isStrEq unit "fahrenheit" then do
    let k ← jToFloat kelvin
    pure (fmtFixed 1 (fAdd (fDiv (fMul (fSub k lit273_15) 9) 5) 32) ++ "°F")
  else if isStrEq unit "kelvin" then do
    let k ← jToFloat kelvin
    pure (fmtFixed 1 k ++ "K")
  else do
    let k ← jToFloat kelvin
    pure (fmtFixed 1 (fSub k lit273_15) ++ "°C")

/-- The module constant `RATE_LIMIT_WARNING`. -/
def rateLimitWarning : String :=
  "Note: OpenWeatherMap free tier allows 1,000 calls/day. Please use responsibly."

/-- One conditional accumulation line of `format_weather_response`
(`if data.get("rain"): response += f"... {data[\x27rain\x27].get(\x271h\x27, 0)} mm"`,
and the same for snow): append the marked line when the field is truthy. -/
def accumLine (flRepr : ℚ → String) (data : J) (key : String) (mark : String)
    (base : String) : Except PyExc String := do
  let v ← jGetD data key J.null
  if jTruthy v then do
    let r ← jItemStr data key
    let oneH ← jGetD r "1h" (J.i 0)
    pure (base ++ mark ++ pyStr flRepr oneH ++ " mm
")
  else pure base

/-- The guarded access `weather = data["weather"][0] if data.get("weather") else {}` — the
guarded first-element access shared by the weather and forecast formatters. -/
def firstWeatherEntry (data : J) : Except PyExc J := do
  let w ← jGetD data "weather" .null
  if jTruthy w then do
    let wl ← jItemStr data "weather"
    jItemNat wl 0
  else pure (J.obj [])

/-- Model of `format_weather_response(data, unit)` (main.py lines 123-159).
`flRepr` abstracts `str(float)`, `fmtTime fmt q` abstracts
`datetime.fromtimestamp(q).strftime(fmt)`. -/
def format_weather_response (flRepr : ℚ → String) (fmtTime : String → ℚ → String)
    (data : J) (unit : J) : Except PyExc String := do
  if !jTruthy data then pure "No weather data available."
  else do
    let noMain ← jNotIn "main" data
    if noMain then pure "No weather data available."
    else do
      let main ← jItemStr data "main"
      let weather ← firstWeatherEntry data
      let wind ← jGetD data "wind" (J.obj [])
      let clouds ← jGetD data "clouds" (J.obj [])
      let temp ← do
        let t ← jGetD main "temp" (J.i 0); format_temperature t unit
      let feelsLike ← do
        let t ← jGetD main "feels_like" (J.i 0); format_temperature t unit
      let tempMin ← do
        let t ← jGetD main "temp_min" (J.i 0); format_temperature t unit
      let tempMax ← do
        let t ← jGetD main "temp_max" (J.i 0); format_temperature t unit
      let placeName ← jGetD data "name" (J.s "Unknown location")
      let dtq ← do
        let d ← jGetD data "dt" (J.i 0); jToFloat d
      let condMain ← jGetD weather "main" (J.s "Unknown")
      let condDesc ← jGetD weather "description" (J.s "No description")
      let humidity ← jGetD main "humidity" (J.i 0)
      let pressure ← jGetD main "pressure" (J.i 0)
      let windSpeed ← jGetD wind "speed" (J.i 0)
      let windDeg ← jGetD wind "deg" (J.i 0)
      let cloudsAll ← jGetD clouds "all" (J.i 0)
      let base :=
        "\n🌍 Weather for " ++ pyStr flRepr placeName ++
        "\n📅 Time: " ++ fmtTime "%Y-%m-%d %H:%M:%S" dtq ++
        "\n\n🌡️ Temperature: " ++ temp ++
        "\n   Feels like: " ++ feelsLike ++
        "\n   Min: " ++ tempMin ++ " | Max: " ++ tempMax ++
        "\n\n☁️ Condition: " ++ pyStr flRepr condMain ++ " - " ++ pyStr flRepr condDesc ++
        "\n💧 Humidity: " ++ pyStr flRepr humidity ++ "%" ++
        "\n🎈 Pressure: " ++ pyStr flRepr pressure ++ " hPa" ++
        "\n💨 Wind: " ++ pyStr flRepr windSpeed ++ " m/s, direction " ++ pyStr flRepr windDeg ++ "°" ++
        "\n☁️ Cloudiness: " ++ pyStr flRepr cloudsAll ++ "%\n"
      let withRain ← accumLine flRepr data "rain" "🌧️ Rain (1h): " base
      let withSnow ← accumLine flRepr data "snow" "❄️ Snow (1h): " withRain
      pure (pyStrip (withSnow ++ "\n" ++ rateLimitWarning))

/-- The Python `xs[:8]` on the value stored under `"list"`: slices a list (or a
string, character-wise), raises `TypeError` on anything else. -/
def jSliceFirst8 (v : J) : Except PyExc (List J) :=
  match v with
  | .arr l => .ok (l.take 8)
  | .s str => .ok ((str.data.take 8).map fun c => J.s (String.mk [c]))
  | .obj _ => .error (.typeError "unhashable type: \x27slice\x27")
  | _ => .error (.typeError ("\x27" ++ pyTypeName v ++ "\x27 object is not subscriptable"))

/-- The body of the `for forecast in forecasts` loop of
`format_forecast_response` (main.py lines 173-186): the text appended for one
forecast entry. -/
def forecastEntryText (flRepr : ℚ → String) (fmtTime : String → ℚ → String)
    (unit : J) (forecast : J) : Except PyExc String := do
  let dtq ← do
    let d ← jGetD forecast "dt" (J.i 0); jToFloat d
  let main ← jGetD forecast "main" (J.obj [])
  let weather ← firstWeatherEntry forecast
  let wind ← jGetD forecast "wind" (J.obj [])
  let temp ← do
    let t ← jGetD main "temp" (J.i 0); format_temperature t unit
  let feelsLike ← do
    let t ← jGetD main "feels_like" (J.i 0); format_temperature t unit
  let condMain ← jGetD weather "main" (J.s "Unknown")
  let condDesc ← jGetD weather "description" (J.s "No description")
  let humidity ← jGetD main "humidity" (J.i 0)
  let windSpeed ← jGetD wind "speed" (J.i 0)
  let popQ ← do
    let p ← jGetD forecast "pop" (J.i 0); jToFloat p
  pure ("📅 " ++ fmtTime "%Y-%m-%d %H:%M" dtq ++ "\n" ++
    "   🌡️ " ++ temp ++ " (feels like " ++ feelsLike ++ ")\n" ++
    "   ☁️ " ++ pyStr flRepr condMain ++ " - " ++ pyStr flRepr condDesc ++ "\n" ++
    "   💧 Humidity: " ++ pyStr flRepr humidity ++ "% | 💨 Wind: " ++
      pyStr flRepr windSpeed ++ " m/s\n" ++
    "   🌧️ Rain probability: " ++ fmtFixed 0 (fMul popQ 100) ++ "%\n\n")

/-- Sequential, fail-fast concatenation of the loop bodies. -/
def forecastEntriesText (flRepr : ℚ → String) (fmtTime : String → ℚ → String)
    (unit : J) : List J → Except PyExc String
  | [] => .ok ""
  | fc :: rest => do
    let e ← forecastEntryText flRepr fmtTime unit fc
    let r ← forecastEntriesText flRepr fmtTime unit rest
    pure (e ++ r)

/-- Model of `format_forecast_response(data, unit)` (main.py lines 162-189). -/
def format_forecast_response (flRepr : ℚ → String) (fmtTime : String → ℚ → String)
    (data : J) (unit : J) : Except PyExc String := do
  if !jTruthy data then pure "No forecast data available."
  else do
    let noList ← jNotIn "list" data
    if noList then pure "No forecast data available."
    else do
      let city ← jGetD data "city" (J.obj [])
      let lst ← jGetD data "list" (J.arr [])
      let forecasts ← jSliceFirst8 lst
      let cityName ← jGetD city "name" (J.s "Unknown location")
      let coord ← jGetD city "coord" (J.obj [])
      let lat ← jGetD coord "lat" (J.i 0)
      let coord2 ← jGetD city "coord" (J.obj [])
      let lon ← jGetD coord2 "lon" (J.i 0)
      let header :=
        "🌍 5-Day Forecast for " ++ pyStr flRepr cityName ++ "\n" ++
        "📍 Coordinates: " ++ pyStr flRepr lat ++ ", " ++ pyStr flRepr lon ++ "\n\n"
      let entries ← forecastEntriesText flRepr fmtTime unit forecasts
      pure (pyStrip (header ++ entries ++ rateLimitWarning))

/-- The dict literal `aqi_labels` looked up with Python key equality
(`2`, `2.0` and `True`-as-`1` hit the int keys); `.get(aqi, "Unknown")`. -/
def aqiLabel (v : J) : String :=
  if pyEqInt v 1 then "Good"
  else if pyEqInt v 2 then "Fair"
  else if pyEqInt v 3 then "Moderate"
  else if pyEqInt v 4 then "Poor"
  else if pyEqInt v 5 then "Very Poor"
  else "Unknown"

/-- Lookup `aqi_labels.get(aqi_level, "Unknown")`: like `aqiLabel`, but an
unhashable key (list/dict) raises `TypeError` as in Python. -/
def aqiLabelLookup (v : J) : Except PyExc String :=
  match v with
  | .arr _ => .error (.typeError "unhashable type: \x27list\x27")
  | .obj _ => .error (.typeError "unhashable type: \x27dict\x27")
  | _ => .ok (aqiLabel v)

/-- Model of `format_air_quality_response(data)` (main.py lines 192-226). -/
def format_air_quality_response (flRepr : ℚ → String) (fmtTime : String → ℚ → String)
    (data : J) : Except PyExc String := do
  if !jTruthy data then pure "No air quality data available."
  else do
    let noList ← jNotIn "list" data
    if noList then pure "No air quality data available."
    else do
      let lst ← jItemStr data "list"
      if !jTruthy lst then pure "No air quality data available."
      else do
        let aqiData ← jItemNat lst 0
        let main ← jGetD aqiData "main" (J.obj [])
        let components ← jGetD aqiData "components" (J.obj [])
        let aqiLevel ← jGetD main "aqi" (J.i 0)
        let label ← aqiLabelLookup aqiLevel
        let dtq ← do
          let d ← jGetD aqiData "dt" (J.i 0); jToFloat d
        let comp2f : String → Except PyExc String := fun key => do
          let c ← jGetD components key (J.i 0)
          let q ← jToFloat c
          pure (fmtFixed 2 q)
        let co ← comp2f "co"
        let no ← comp2f "no"
        let no2 ← comp2f "no2"
        let o3 ← comp2f "o3"
        let so2 ← comp2f "so2"
        let pm25 ← comp2f "pm2_5"
        let pm10 ← comp2f "pm10"
        let nh3 ← comp2f "nh3"
        pure (pyStrip ("\n🌫️ Air Quality Index (AQI): " ++ pyStr flRepr aqiLevel ++ " - " ++ label ++
          "\n📅 Time: " ++ fmtTime "%Y-%m-%d %H:%M:%S" dtq ++
          "\n\nComponents (μg/m³):" ++
          "\n  CO (Carbon monoxide): " ++ co ++
          "\n  NO (Nitrogen monoxide): " ++ no ++
          "\n  NO₂ (Nitrogen dioxide): " ++ no2 ++
          "\n  O₃ (Ozone): " ++ o3 ++
          "\n  SO₂ (Sulphur dioxide): " ++ so2 ++
          "\n  PM2.5 (Fine particles): " ++ pm25 ++
          "\n  PM10 (Coarse particles): " ++ pm10 ++
          "\n  NH₃ (Ammonia): " ++ nh3 ++
          "\n\n" ++ rateLimitWarning ++ "\n"))

/-! ## Location resolver (`get_coordinates`, main.py lines 300-336) -/

/-- Python `s.split(",")` (empty parts kept). -/
def splitCommaAux (cur : List Char) : List Char → List String
  | [] => [String.mk cur.reverse]
  | c :: rest =>
    if c = ',' then String.mk cur.reverse :: splitCommaAux [] rest
    else splitCommaAux (c :: cur) rest

/-- Python `s.split(",")`. -/
def splitComma (s : String) : List String := splitCommaAux [] s.data

/-- Python `"," in s`. -/
def hasComma (s : String) : Bool := s.data.any (· = ',')

/-- Numeric value of a digit string. -/
def digitsVal (ds : List Char) : Nat :=
  ds.foldl (fun a c => a * 10 + (c.toNat - 48)) 0

/-- Parse a finite decimal literal (optional sign, digits with optional
fractional part, optional exponent) to its exact rational value — the grammar
of the Python `float(str)` restricted to finite decimal literals.  `inf`/`nan`
inputs, rejected here, parse in Python but then fail the range check of `get_coordinates`, reaching the same geocoding fallback; digit-group underscores
are not modelled. -/
def parseDecQ (s : String) : Option ℚ :=
  let cs := s.data
  let (sgn, cs) : ℤ × List Char :=
    match cs with
    | '+' :: rest => (1, rest)
    | '-' :: rest => (-1, rest)
    | _ => (1, cs)
  let (ip, cs) := cs.span (fun c => c.isDigit)
  let (fp, cs) : List Char × List Char :=
    match cs with
    | '.' :: rest => rest.span (fun c => c.isDigit)
    | _ => ([], cs)
  if ip.isEmpty && fp.isEmpty then none
  else
    let (expOk, expVal, cs) : Bool × ℤ × List Char :=
      match cs with
      | 'e' :: rest =>
        let (esgn, rest) : ℤ × List Char :=
          match rest with
          | '+' :: r => (1, r)
          | '-' :: r => (-1, r)
          | _ => (1, rest)
        let (ed, rest) := rest.span (fun c => c.isDigit)
        if ed.isEmpty then (false, 0, rest) else (true, esgn * digitsVal ed, rest)
      | 'E' :: rest =>
        let (esgn, rest) : ℤ × List Char :=
          match rest with
          | '+' :: r => (1, r)
          | '-' :: r => (-1, r)
          | _ => (1, rest)
        let (ed, rest) := rest.span (fun c => c.isDigit)
        if ed.isEmpty then (false, 0, rest) else (true, esgn * digitsVal ed, rest)
      | _ => (true, 0, cs)
    if !expOk || !cs.isEmpty then none
    else some ((sgn * digitsVal (ip ++ fp) : ℚ) / (10 : ℚ) ^ fp.length * (10 : ℚ) ^ expVal)

/-- Python `float(s)`: parse, then round to the nearest binary64. -/
def pyFloat (s : String) : Option ℚ := (parseDecQ s).map roundToF64

/-- The coordinate-parsing step of `get_coordinates` (lines 315-323): when
the location contains a comma, try `float` on the first two stripped parts and
accept them when in range; `None` both on parse failure (the swallowed
`ValueError`) and on an out-of-range pair — both fall through to geocoding. -/
def coordParse (location : String) : Option (ℚ × ℚ) :=
  if hasComma location then
    match splitComma location with
    | p0 :: p1 :: _ => do
      let lat ← pyFloat (pyStrip p0)
      let lon ← pyFloat (pyStrip p1)
      if -90 ≤ lat ∧ lat ≤ 90 ∧ -180 ≤ lon ∧ lon ≤ 180 then some (lat, lon) else none
    | _ => none
  else none

/-- The geocoding endpoint URL built in `get_coordinates`. -/
def geoDirectUrl : String := "https://api.openweathermap.org/geo/1.0/direct"

/-- The current-weather endpoint URL. -/
def weatherEndpointUrl : String := "https://api.openweathermap.org/data/2.5/weather"

/-- The forecast endpoint URL. -/
def forecastEndpointUrl : String := "https://api.openweathermap.org/data/2.5/forecast"

/-- The air-pollution endpoint URL. -/
def airEndpointUrl : String := "https://api.openweathermap.org/data/2.5/air_pollution"

/-- Model of `get_coordinates(location, client)` (main.py lines 300-336).  `client`
gives, per request URL, the upstream outcome of each GET attempt.  Returns the
result (`(lat, lon)` or the raised exception) paired with whether the
geocoding endpoint was contacted at all. -/
def get_coordinates (location : String) (client : String → Nat → HttpOutcome) :
    Except PyExc (J × J) × Bool :=
  match coordParse location with
  | some (lat, lon) => (.ok (J.f lat, J.f lon), false)
  | none =>
    let fr := fetch_with_retry (client geoDirectUrl) 3
    match fr.result with
    | .error e => (.error e, true)
    | .ok data =>
      if !jTruthy data then
        (.error (.weatherAPIError ("Location \x27" ++ location ++ "\x27 not found.")), true)
      else
        match (do
          let first ← jItemNat data 0
          let la ← jItemStr first "lat"
          let first2 ← jItemNat data 0
          let lo ← jItemStr first2 "lon"
          pure (la, lo) : Except PyExc (J × J)) with
        | .ok p => (.ok p, true)
        | .error (.keyError m) =>
          (.error (.weatherAPIError ("Failed to parse geocoding response: " ++ m)), true)
        | .error (.indexError m) =>
          (.error (.weatherAPIError ("Failed to parse geocoding response: " ++ m)), true)
        | .error e => (.error e, true)

/-! ## Tool dispatcher (`call_tool`, main.py lines 339-429) -/

/-- The configuration-error text returned when the API key is unset. -/
def configErrText : String :=
  "Error: OPENWEATHER_API_KEY environment variable is not set. Please configure your API key in the .env file."

/-- The validation text returned when the location argument is missing/empty. -/
def locationErrText : String := "Error: Location parameter is required."

/-- Truthiness test `not OPENWEATHER_API_KEY`: unset or empty. -/
def apiKeyFalsy : Option String → Bool
  | none => true
  | some s => s.isEmpty

/-- Model of `call_tool(name, arguments)` (main.py lines 339-429), against an API-key
environment, an abstract upstream `client`, and the rendering abstractions
`flRepr`/`fmtTime`.  The result is the list of returned text contents, or the
exception the call raises to its caller.  Everything inside the `try` block is
caught (`except WeatherAPIError` / `except Exception`); the argument
validation above it is not. -/
def call_tool (apiKey : Option String) (name : String) (args : List (String × J))
    (client : String → Nat → HttpOutcome)
    (flRepr : ℚ → String) (fmtTime : String → ℚ → String) :
    Except PyExc (List String) :=
  if apiKeyFalsy apiKey then .ok [configErrText]
  else
    match (jLookup args "location").getD (J.s "") with
    | J.s rawLoc =>
      let location := pyStrip rawLoc
      if location.isEmpty then .ok [locationErrText]
      else
        let units := (jLookup args "units").getD (J.s "celsius")
        let inner : Except PyExc (List String) := do
          let coords := get_coordinates location client
          let _latlon ← coords.1
          if name = "get_current_weather" then do
            let r := fetch_with_retry (client weatherEndpointUrl) 3
            let data ← r.result
            let text ← format_weather_response flRepr fmtTime data units
            pure [text]
          else if name = "get_weather_forecast" then do
            let r := fetch_with_retry (client forecastEndpointUrl) 3
            let data ← r.result
            let text ← format_forecast_response flRepr fmtTime data units
            pure [text]
          else if name = "get_air_quality" then do
            let r := fetch_with_retry (client airEndpointUrl) 3
            let data ← r.result
            let text ← format_air_quality_response flRepr fmtTime data
            pure [text]
          else pure ["Error: Unknown tool \x27" ++ name ++ "\x27"]
        match inner with
        | .ok texts => .ok texts
        | .error (.weatherAPIError m) => .ok ["Error: " ++ m]
        | .error e => .ok ["Unexpected error: " ++ e.text]
    | v =>
      .error (.attributeError
        ("\x27" ++ pyTypeName v ++ "\x27 object has no attribute \x27strip\x27"))

/-! ## Shape predicates

The formatters tolerate *absent* fields but, like the Python they embed, raise
on present fields of the wrong type (`5.get(..)`, `"x" - 273.15`, …).  These
predicates say that every field that *is* present has the type its access path
expects; fields read only through `str(..)` interpolation are unconstrained. -/

/-- Absent, or a value Python arithmetic/`%.Nf` accepts (int, float, bool). -/
def wsOptNum : Option J → Bool
  | none => true
  | some (J.i _) => true
  | some (J.f _) => true
  | some (J.b _) => true
  | some _ => false

/-- Absent, or a dict (for values then accessed with `.get`). -/
def wsOptObj : Option J → Bool
  | none => true
  | some (J.obj _) => true
  | some _ => false

/-- Is the value a dict? -/
def isObjJ : J → Bool
  | .obj _ => true
  | _ => false

/-- Is the value a list headed by a dict (the shape `data["weather"][0].get`
needs)? -/
def isWeatherArr : J → Bool
  | .arr (J.obj _ :: _) => true
  | _ => false

/-- The `rain`/`snow` pattern: accessed with `.get` only when truthy. -/
def wsGuardedObj : Option J → Bool
  | none => true
  | some v => !jTruthy v || isObjJ v

/-- The `weather` pattern: `data["weather"][0]` is taken only when truthy, and
the first element is then accessed with `.get`. -/
def wsWeatherField : Option J → Bool
  | none => true
  | some v => !jTruthy v || isWeatherArr v

/-- A value `aqi_labels.get` accepts as a key (hashable: not list/dict). -/
def wsHashable : J → Bool
  | .arr _ => false
  | .obj _ => false
  | _ => true

/-- Well-shapedness for `format_weather_response`: when `main` is absent the
formatter returns early and nothing else is read. -/
def wsWeather (d : J) : Bool :=
  match d with
  | J.obj kvs =>
    match jLookup kvs "main" with
    | none => true
    | some (J.obj mf) =>
      wsOptNum (jLookup mf "temp") && wsOptNum (jLookup mf "feels_like") &&
      wsOptNum (jLookup mf "temp_min") && wsOptNum (jLookup mf "temp_max") &&
      wsWeatherField (jLookup kvs "weather") && wsOptObj (jLookup kvs "wind") &&
      wsOptObj (jLookup kvs "clouds") && wsOptNum (jLookup kvs "dt") &&
      wsGuardedObj (jLookup kvs "rain") && wsGuardedObj (jLookup kvs "snow")
    | some _ => false
  | _ => false

/-- Well-shapedness of one forecast entry. -/
def wsForecastEntry (e : J) : Bool :=
  match e with
  | J.obj ef =>
    wsOptNum (jLookup ef "dt") &&
    (match jLookup ef "main" with
     | none => true
     | some (J.obj mf) =>
       wsOptNum (jLookup mf "temp") && wsOptNum (jLookup mf "feels_like")
     | some _ => false) &&
    wsWeatherField (jLookup ef "weather") && wsOptObj (jLookup ef "wind") &&
    wsOptNum (jLookup ef "pop")
  | _ => false

/-- Well-shapedness for `format_forecast_response`. -/
def wsForecast (d : J) : Bool :=
  match d with
  | J.obj kvs =>
    match jLookup kvs "list" with
    | none => true
    | some (J.arr es) =>
      es.all wsForecastEntry && wsOptObj (jLookup kvs "city") &&
      (match jLookup kvs "city" with
       | some (J.obj cf) => wsOptObj (jLookup cf "coord")
       | _ => true)
    | some _ => false
  | _ => false

/-- The constraints on the head entry of the air-quality list. -/
def wsAirEntry (e : J) : Bool :=
  match e with
  | J.obj ef =>
    (match jLookup ef "main" with
     | none => true
     | some (J.obj mf) => wsHashable ((jLookup mf "aqi").getD (J.i 0))
     | some _ => false) &&
    wsOptNum (jLookup ef "dt") &&
    (match jLookup ef "components" with
     | none => true
     | some (J.obj cf) =>
       wsOptNum (jLookup cf "co") && wsOptNum (jLookup cf "no") &&
       wsOptNum (jLookup cf "no2") && wsOptNum (jLookup cf "o3") &&
       wsOptNum (jLookup cf "so2") && wsOptNum (jLookup cf "pm2_5") &&
       wsOptNum (jLookup cf "pm10") && wsOptNum (jLookup cf "nh3")
     | some _ => false)
  | _ => false

/-- Well-shapedness for `format_air_quality_response`: a falsy `list` value
returns early; a truthy one must be a list headed by a well-shaped entry. -/
def wsAir (d : J) : Bool :=
  match d with
  | J.obj kvs =>
    match jLookup kvs "list" with
    | none => true
    | some v =>
      if jTruthy v then
        match v with
        | J.arr (e :: _) => wsAirEntry e
        | _ => false
      else true
  | _ => false

/-- The `location` argument, after the `.get("location", "")` default, is a
string — the hypothesis under which the pre-`try` validation of `call_tool` cannot
raise. -/
def locationArgString (args : List (String × J)) : Bool :=
  match (jLookup args "location").getD (J.s "") with
  | J.s _ => true
  | _ => false

/-! ## Support lemmas on strings -/

theorem startsWithChars_self_append (n b : List Char) :
    startsWithChars n (n ++ b) = true := by
  induction n with
  | nil => rfl
  | cons c cs ih => simp [startsWithChars, ih]

theorem hasSubChars_append_of_right (n : List Char) (a b : List Char)
    (h : hasSubChars n b = true) : hasSubChars n (a ++ b) = true := by
  induction a with
  | nil => simpa using h
  | cons c cs ih => simp [hasSubChars, ih]

theorem hasSubChars_at_juncture (a n b : List Char) :
    hasSubChars n (a ++ (n ++ b)) = true := by
  induction a with
  | nil =>
    cases n with
    | nil => cases b <;> simp [hasSubChars, startsWithChars]
    | cons c cs =>
      simp only [List.nil_append, hasSubChars, Bool.or_eq_true]
      exact Or.inl (startsWithChars_self_append (c :: cs) b)
  | cons c cs ih => simp [hasSubChars, ih]

theorem strContains_append_of_right (a b n : String)
    (h : strContains b n = true) : strContains (a ++ b) n = true := by
  simp only [strContains, String.data_append]
  exact hasSubChars_append_of_right _ _ _ h

theorem strContains_middle (a n b : String) :
    strContains (a ++ n ++ b) n = true := by
  simp only [strContains, String.data_append, List.append_assoc]
  exact hasSubChars_at_juncture _ _ _

theorem pyStrip_wrapL (t : String) (c d : Char) (ct dt : List Char)
    (hhead : t.data = c :: ct) (hc : isPySpace c = false)
    (hlast : t.data.reverse = d :: dt) (hd : isPySpace d = false) :
    pyStrip ("\n" ++ t) = t := by
  have hcd : ("\n" ++ t).data = '\n' :: t.data := by simp
  simp only [pyStrip, hcd]
  rw [List.dropWhile_cons_of_pos (by simp [isPySpace]), hhead,
    List.dropWhile_cons_of_neg (by simp [hc]), ← hhead, hlast,
    List.dropWhile_cons_of_neg (by simp [hd]), ← hlast, List.reverse_reverse]

theorem pyStrip_wrap (t : String) (c d : Char) (ct dt : List Char)
    (hhead : t.data = c :: ct) (hc : isPySpace c = false)
    (hlast : t.data.reverse = d :: dt) (hd : isPySpace d = false) :
    pyStrip ("\n" ++ t ++ "\n") = t := by
  have hcd : ("\n" ++ t ++ "\n").data = '\n' :: (t.data ++ ['\n']) := by simp
  simp only [pyStrip, hcd]
  rw [List.dropWhile_cons_of_pos (by simp [isPySpace]), hhead]
  rw [show (c :: ct) ++ ['\n'] = c :: (ct ++ ['\n']) from rfl,
    List.dropWhile_cons_of_neg (by simp [hc])]
  rw [show (c :: (ct ++ ['\n'])).reverse = '\n' :: ((c :: ct).reverse) by simp,
    List.dropWhile_cons_of_pos (by simp [isPySpace]), ← hhead, hlast,
    List.dropWhile_cons_of_neg (by simp [hd]), ← hlast, List.reverse_reverse]

/-! ## Support lemmas on the fetcher -/

theorem fetchAux_success (up : Nat → HttpOutcome) (rem att : Nat) (body : J)
    (h : up att = .success body) : fetchAux up (rem + 1) att = ⟨.ok body, 0, 1⟩ := by
  simp [fetchAux, h]

theorem fetchAux_429_retry (up : Nat → HttpOutcome) (rem att : Nat) (b : String)
    (h : up att = .statusErr 429 b) :
    fetchAux up (rem + 2) att =
      ⟨(fetchAux up (rem + 1) (att + 1)).result,
       2 ^ att + (fetchAux up (rem + 1) (att + 1)).sleepSecs,
       (fetchAux up (rem + 1) (att + 1)).attemptsUsed + 1⟩ := by
  simp [fetchAux, h]

theorem fetchAux_429_last (up : Nat → HttpOutcome) (att : Nat) (b : String)
    (h : up att = .statusErr 429 b) :
    fetchAux up 1 att = ⟨.error (.weatherAPIError rateLimitErrMsg), 0, 1⟩ := by
  simp [fetchAux, h]

theorem fetchAux_401 (up : Nat → HttpOutcome) (rem att : Nat) (b : String)
    (h : up att = .statusErr 401 b) :
    fetchAux up (rem + 1) att = ⟨.error (.weatherAPIError authErrMsg), 0, 1⟩ := by
  simp [fetchAux, h]

theorem fetchAux_404 (up : Nat → HttpOutcome) (rem att : Nat) (b : String)
    (h : up att = .statusErr 404 b) :
    fetchAux up (rem + 1) att = ⟨.error (.weatherAPIError notFoundErrMsg), 0, 1⟩ := by
  simp [fetchAux, h]

theorem fetchAux_other_status (up : Nat → HttpOutcome) (rem att : Nat) (code : Int)
    (b : String) (h : up att = .statusErr code b)
    (h1 : code ≠ 401) (h2 : code ≠ 404) (h3 : code ≠ 429) :
    fetchAux up (rem + 1) att =
      ⟨.error (.weatherAPIError ("HTTP error " ++ toString code ++ ": " ++ b)), 0, 1⟩ := by
  simp only [fetchAux, h]
  rw [if_neg h1, if_neg h2, if_neg h3]

theorem fetchAux_reqError (up : Nat → HttpOutcome) (rem att : Nat) (m : String)
    (h : up att = .reqError m) :
    fetchAux up (rem + 1) att =
      ⟨.error (.weatherAPIError ("Network error: " ++ m)), 0, 1⟩ := by
  simp [fetchAux, h]

/-! ## Claims -/

/-- Claim **C1**: with `max_retries = 3`, if the upstream returns HTTP 429 on the
first two attempts and 200 on the third, `fetch_with_retry` returns the parsed
JSON body, having slept `2^0 + 2^1 = 3` seconds of backoff before the third
attempt; and if every one of the 3 attempts returns HTTP 429, it fails with
the rate-limited error. -/
theorem fetch_retry_backoff_and_rate_limit_exhaustion :
    (∀ (upstream : Nat → HttpOutcome) (b0 b1 : String) (body : J),
        upstream 0 = .statusErr 429 b0 →
        upstream 1 = .statusErr 429 b1 →
        upstream 2 = .success body →
        fetch_with_retry upstream 3 = ⟨.ok body, 3, 3⟩) ∧
    (∀ (upstream : Nat → HttpOutcome) (bodies : Nat → String),
        (∀ i, i < 3 → upstream i = .statusErr 429 (bodies i)) →
        (fetch_with_retry upstream 3).result =
          .error (.weatherAPIError rateLimitErrMsg)) := by
  constructor
  · intro upstream b0 b1 body h0 h1 h2
    show fetchAux upstream 3 0 = _
    rw [show (3 : Nat) = 1 + 2 from rfl, fetchAux_429_retry upstream 1 0 b0 h0,
      show (1 + 1 : Nat) = 0 + 2 from rfl, fetchAux_429_retry upstream 0 1 b1 h1,
      fetchAux_success upstream 0 2 body h2]
    norm_num
  · intro upstream bodies h
    show (fetchAux upstream 3 0).result = _
    rw [show (3 : Nat) = 1 + 2 from rfl, fetchAux_429_retry upstream 1 0 _ (h 0 (by omega)),
      show (1 + 1 : Nat) = 0 + 2 from rfl, fetchAux_429_retry upstream 0 1 _ (h 1 (by omega)),
      fetchAux_429_last upstream 2 _ (h 2 (by omega))]

/-- Witness for C1 at a concrete upstream. -/
theorem fetch_retry_backoff_and_rate_limit_exhaustion_witness :
    fetch_with_retry (fun n => if n < 2 then .statusErr 429 "" else .success (J.i 7)) 3 =
      ⟨.ok (J.i 7), 3, 3⟩ ∧
    (fetch_with_retry (fun _ => .statusErr 429 "x") 3).result =
      .error (.weatherAPIError rateLimitErrMsg) :=
  ⟨fetch_retry_backoff_and_rate_limit_exhaustion.1 _ "" "" (J.i 7) rfl rfl rfl,
   fetch_retry_backoff_and_rate_limit_exhaustion.2 _ (fun _ => "x") (fun _ _ => rfl)⟩

/-- Claim **C2**: every non-transient first-attempt failure — HTTP 401, HTTP 404,
any other non-2xx status, any other network-layer error — makes
`fetch_with_retry` fail immediately with the corresponding error, after
exactly one attempt and zero seconds of sleep, for any positive retry bound. -/
theorem fetch_retry_nontransient_fail_immediately :
    (∀ (upstream : Nat → HttpOutcome) (maxR : Nat) (b : String),
        1 ≤ maxR → upstream 0 = .statusErr 401 b →
        fetch_with_retry upstream maxR = ⟨.error (.weatherAPIError authErrMsg), 0, 1⟩) ∧
    (∀ (upstream : Nat → HttpOutcome) (maxR : Nat) (b : String),
        1 ≤ maxR → upstream 0 = .statusErr 404 b →
        fetch_with_retry upstream maxR = ⟨.error (.weatherAPIError notFoundErrMsg), 0, 1⟩) ∧
    (∀ (upstream : Nat → HttpOutcome) (maxR : Nat) (code : Int) (b : String),
        1 ≤ maxR → upstream 0 = .statusErr code b →
        code ≠ 401 → code ≠ 404 → code ≠ 429 →
        fetch_with_retry upstream maxR =
          ⟨.error (.weatherAPIError ("HTTP error " ++ toString code ++ ": " ++ b)), 0, 1⟩) ∧
    (∀ (upstream : Nat → HttpOutcome) (maxR : Nat) (m : String),
        1 ≤ maxR → upstream 0 = .reqError m →
        fetch_with_retry upstream maxR =
          ⟨.error (.weatherAPIError ("Network error: " ++ m)), 0, 1⟩) := by
  refine ⟨fun up maxR b hm h => ?_, fun up maxR b hm h => ?_,
    fun up maxR code b hm h h1 h2 h3 => ?_, fun up maxR m hm h => ?_⟩ <;>
    obtain ⟨rem, rfl⟩ : ∃ rem, maxR = rem + 1 :=
      ⟨maxR - 1, by omega⟩
  · exact fetchAux_401 up rem 0 b h
  · exact fetchAux_404 up rem 0 b h
  · exact fetchAux_other_status up rem 0 code b h h1 h2 h3
  · exact fetchAux_reqError up rem 0 m h

/-- Witness for C2 at concrete upstreams (one per failure kind). -/
theorem fetch_retry_nontransient_fail_immediately_witness :
    fetch_with_retry (fun _ => .statusErr 401 "") 3 =
      ⟨.error (.weatherAPIError authErrMsg), 0, 1⟩ ∧
    fetch_with_retry (fun _ => .statusErr 404 "") 3 =
      ⟨.error (.weatherAPIError notFoundErrMsg), 0, 1⟩ ∧
    fetch_with_retry (fun _ => .statusErr 500 "boom") 3 =
      ⟨.error (.weatherAPIError "HTTP error 500: boom"), 0, 1⟩ ∧
    fetch_with_retry (fun _ => .reqError "dns") 3 =
      ⟨.error (.weatherAPIError "Network error: dns"), 0, 1⟩ :=
  ⟨fetch_retry_nontransient_fail_immediately.1 _ 3 "" (by omega) rfl,
   fetch_retry_nontransient_fail_immediately.2.1 _ 3 "" (by omega) rfl,
   fetch_retry_nontransient_fail_immediately.2.2.1 _ 3 500 "boom" (by omega) rfl
     (by decide) (by decide) (by decide),
   fetch_retry_nontransient_fail_immediately.2.2.2 _ 3 "dns" (by omega) rfl⟩

/-- Claim **C4**: a comma-bearing location whose first two comma-separated parts
parse as floats within the latitude/longitude ranges resolves to exactly that
pair with no geocoding call (the result is independent of the client and the
network flag is `false`); in particular `"51.5074,-0.1278"` resolves to the
floats `51.5074` and `-0.1278`. -/
theorem get_coordinates_inline_parse_no_network :
    (∀ (location : String) (client : String → Nat → HttpOutcome)
        (p0 p1 : String) (rest : List String) (lat lon : ℚ),
        hasComma location = true →
        splitComma location = p0 :: p1 :: rest →
        pyFloat (pyStrip p0) = some lat →
        pyFloat (pyStrip p1) = some lon →
        -90 ≤ lat → lat ≤ 90 → -180 ≤ lon → lon ≤ 180 →
        get_coordinates location client = (.ok (J.f lat, J.f lon), false)) ∧
    (∀ client : String → Nat → HttpOutcome,
        get_coordinates "51.5074,-0.1278" client =
          (.ok (J.f (roundToF64 (515074 / 10000)), J.f (roundToF64 (-1278 / 10000))),
            false)) := by
  have main : ∀ (location : String) (client : String → Nat → HttpOutcome)
      (p0 p1 : String) (rest : List String) (lat lon : ℚ),
      hasComma location = true →
      splitComma location = p0 :: p1 :: rest →
      pyFloat (pyStrip p0) = some lat →
      pyFloat (pyStrip p1) = some lon →
      -90 ≤ lat → lat ≤ 90 → -180 ≤ lon → lon ≤ 180 →
      get_coordinates location client = (.ok (J.f lat, J.f lon), false) := by
    intro location client p0 p1 rest lat lon hc hsplit hlat hlon h1 h2 h3 h4
    have hcp : coordParse location = some (lat, lon) := by
      simp only [coordParse, hc, if_true, hsplit, hlat, hlon, Option.bind_eq_bind,
        Option.some_bind]
      rw [if_pos ⟨h1, h2, h3, h4⟩]
    simp only [get_coordinates, hcp]
  exact ⟨main, fun client =>
    main _ client "51.5074" "-0.1278" [] _ _ (by with_unfolding_all rfl)
      (by with_unfolding_all rfl) (by with_unfolding_all rfl) (by with_unfolding_all rfl)
      (of_decide_eq_true (by with_unfolding_all rfl))
      (of_decide_eq_true (by with_unfolding_all rfl))
      (of_decide_eq_true (by with_unfolding_all rfl))
      (of_decide_eq_true (by with_unfolding_all rfl))⟩

/-- Witness for C4 at the concrete location string and a dead client. -/
theorem get_coordinates_inline_parse_no_network_witness :
    get_coordinates "51.5074,-0.1278" (fun _ _ => .timeout) =
      (.ok (J.f (roundToF64 (515074 / 10000)), J.f (roundToF64 (-1278 / 10000))),
        false) :=
  get_coordinates_inline_parse_no_network.1 _ _ "51.5074" "-0.1278" [] _ _
    (by with_unfolding_all rfl) (by with_unfolding_all rfl) (by with_unfolding_all rfl)
    (by with_unfolding_all rfl)
    (of_decide_eq_true (by with_unfolding_all rfl))
    (of_decide_eq_true (by with_unfolding_all rfl))
    (of_decide_eq_true (by with_unfolding_all rfl))
    (of_decide_eq_true (by with_unfolding_all rfl))

/-- Claim **C5**: a comma-bearing location whose coordinate parse fails or is out of
range falls through to the geocoding call (never raising from the parse step);
`"invalid,coordinates,string"` is such an input; and whenever geocoding
returns an empty list the resolver fails with a `WeatherAPIError` whose
message contains `"not found"`. -/
theorem get_coordinates_fallthrough_and_not_found :
    (∀ (location : String) (client : String → Nat → HttpOutcome),
        hasComma location = true → coordParse location = none →
        (get_coordinates location client).2 = true) ∧
    coordParse "invalid,coordinates,string" = none ∧
    (∀ (location : String) (client : String → Nat → HttpOutcome),
        coordParse location = none →
        (fetch_with_retry (client geoDirectUrl) 3).result = .ok (J.arr []) →
        ∃ msg, get_coordinates location client =
            (.error (.weatherAPIError msg), true) ∧
          strContains msg "not found" = true) := by
  refine ⟨?_, by with_unfolding_all rfl, ?_⟩
  · intro location client _ hcp
    simp only [get_coordinates, hcp]
    cases h : (fetch_with_retry (client geoDirectUrl) 3).result with
    | error e => rfl
    | ok data =>
      simp only []
      split
      · rfl
      · split <;> rfl
  · intro location client hcp hfe
    refine ⟨"Location \x27" ++ location ++ "\x27 not found.", ?_, ?_⟩
    · simp only [get_coordinates, hcp, hfe, jTruthy, List.isEmpty_nil, Bool.not_true,
        Bool.not_false, if_true]
    · exact strContains_append_of_right _ _ _ (by with_unfolding_all rfl)

/-- Witness for C5: the fall-through input against a geocoder that returns an
empty result list. -/
theorem get_coordinates_fallthrough_and_not_found_witness :
    (get_coordinates "invalid,coordinates,string" (fun _ _ => .success (J.arr []))).2 =
      true ∧
    ∃ msg, get_coordinates "invalid,coordinates,string"
        (fun _ _ => .success (J.arr [])) = (.error (.weatherAPIError msg), true) ∧
      strContains msg "not found" = true :=
  ⟨get_coordinates_fallthrough_and_not_found.1 _ _ (by with_unfolding_all rfl)
      (by with_unfolding_all rfl),
   get_coordinates_fallthrough_and_not_found.2.2 _ _ (by with_unfolding_all rfl)
      (by with_unfolding_all rfl)⟩

/-- Claim **C6** (divergence record): at the Python float `273.15`,
`format_temperature` renders `"0.0°C"` and `"32.0°F"` as the claim states, but
the kelvin branch renders `"273.1K"`, not the `"273.2K"` asserted by the claim
and by the repo-internal test `test_kelvin_to_kelvin`: the binary64 nearest
to 273.15 is 273.14999999999997726…, which `%.1f` rounds down. -/
theorem format_temperature_at_273_15 :
    format_temperature (J.f (roundToF64 (27315 / 100))) (J.s "celsius") = .ok "0.0°C" ∧
    format_temperature (J.f (roundToF64 (27315 / 100))) (J.s "fahrenheit") = .ok "32.0°F" ∧
    format_temperature (J.f (roundToF64 (27315 / 100))) (J.s "kelvin") = .ok "273.1K" :=
  ⟨by with_unfolding_all rfl, by with_unfolding_all rfl, by with_unfolding_all rfl⟩

/-! ## Unit-argument congruence lemmas -/

theorem format_temperature_unit_congr (k u : J)
    (h1 : isStrEq u "fahrenheit" = false) (h2 : isStrEq u "kelvin" = false) :
    format_temperature k u = format_temperature k (J.s "celsius") := by
  simp only [format_temperature, h1, h2, Bool.false_eq_true, if_false]
  rfl

theorem format_weather_response_unit_congr (flRepr : ℚ → String)
    (fmtTime : String → ℚ → String) (data u : J)
    (h1 : isStrEq u "fahrenheit" = false) (h2 : isStrEq u "kelvin" = false) :
    format_weather_response flRepr fmtTime data u =
      format_weather_response flRepr fmtTime data (J.s "celsius") := by
  have hft : ∀ k, format_temperature k u = format_temperature k (J.s "celsius") :=
    fun k => format_temperature_unit_congr k u h1 h2
  simp only [format_weather_response, hft]

theorem forecastEntryText_unit_congr (flRepr : ℚ → String)
    (fmtTime : String → ℚ → String) (u fc : J)
    (h1 : isStrEq u "fahrenheit" = false) (h2 : isStrEq u "kelvin" = false) :
    forecastEntryText flRepr fmtTime u fc =
      forecastEntryText flRepr fmtTime (J.s "celsius") fc := by
  have hft : ∀ k, format_temperature k u = format_temperature k (J.s "celsius") :=
    fun k => format_temperature_unit_congr k u h1 h2
  simp only [forecastEntryText, hft]

theorem forecastEntriesText_unit_congr (flRepr : ℚ → String)
    (fmtTime : String → ℚ → String) (u : J)
    (h1 : isStrEq u "fahrenheit" = false) (h2 : isStrEq u "kelvin" = false) :
    ∀ l : List J, forecastEntriesText flRepr fmtTime u l =
      forecastEntriesText flRepr fmtTime (J.s "celsius") l := by
  intro l
  induction l with
  | nil => rfl
  | cons fc rest ih =>
    simp only [forecastEntriesText, forecastEntryText_unit_congr flRepr fmtTime u fc h1 h2,
      ih]

theorem format_forecast_response_unit_congr (flRepr : ℚ → String)
    (fmtTime : String → ℚ → String) (data u : J)
    (h1 : isStrEq u "fahrenheit" = false) (h2 : isStrEq u "kelvin" = false) :
    format_forecast_response flRepr fmtTime data u =
      format_forecast_response flRepr fmtTime data (J.s "celsius") := by
  simp only [format_forecast_response,
    forecastEntriesText_unit_congr flRepr fmtTime u h1 h2]

/-- Claim **C10**: `format_temperature` treats every unit value other than
`"fahrenheit"` and `"kelvin"` — e.g. `"Celsius"`, `"miles"`, non-strings — as
celsius; hence `call_tool` with an out-of-enum `units` argument behaves
exactly as with `"celsius"` and silently returns a celsius-formatted result
rather than an error. -/
theorem out_of_enum_units_fall_back_to_celsius :
    (∀ (k u : J), isStrEq u "fahrenheit" = false → isStrEq u "kelvin" = false →
        format_temperature k u = format_temperature k (J.s "celsius")) ∧
    (∀ (apiKey : Option String) (name : String) (rest : List (String × J))
        (client : String → Nat → HttpOutcome) (flRepr : ℚ → String)
        (fmtTime : String → ℚ → String),
        call_tool apiKey name (("units", J.s "miles") :: rest) client flRepr fmtTime =
          call_tool apiKey name (("units", J.s "celsius") :: rest) client flRepr fmtTime) ∧
    (∃ out, call_tool (some "key") "get_current_weather"
        [("location", J.s "0,0"), ("units", J.s "miles")]
        (fun url _ => if url = weatherEndpointUrl
          then .success (J.obj [("main", J.obj [])]) else .timeout)
        (fun _ => "") (fun _ _ => "") = .ok [out] ∧
      strContains out "°C" = true) := by
  refine ⟨fun k u h1 h2 => format_temperature_unit_congr k u h1 h2,
    fun apiKey name rest client flRepr fmtTime => ?_,
    ⟨_, by with_unfolding_all rfl, by with_unfolding_all rfl⟩⟩
  have hw : ∀ data, format_weather_response flRepr fmtTime data (J.s "miles") =
      format_weather_response flRepr fmtTime data (J.s "celsius") :=
    fun data => format_weather_response_unit_congr flRepr fmtTime data _ rfl rfl
  have hf : ∀ data, format_forecast_response flRepr fmtTime data (J.s "miles") =
      format_forecast_response flRepr fmtTime data (J.s "celsius") :=
    fun data => format_forecast_response_unit_congr flRepr fmtTime data _ rfl rfl
  simp only [call_tool, jLookup, if_neg (show ¬("units" = "location") from by decide),
    eq_self_iff_true, if_true, Option.getD_some, hw, hf]

/-- Witness for C10 at a concrete out-of-enum unit. -/
theorem out_of_enum_units_fall_back_to_celsius_witness :
    format_temperature (J.i 0) (J.s "miles") =
      format_temperature (J.i 0) (J.s "celsius")  :=
  out_of_enum_units_fall_back_to_celsius.1 (J.i 0) (J.s "miles") rfl rfl

/-! ## Support lemmas on `Except` -/

theorem okThen {ε α β : Type _} (a : α) (f : α → Except ε β) :
    (Except.ok a : Except ε α) >>= f = f a := rfl

theorem errThen {ε α β : Type _} (x : ε) (f : α → Except ε β) :
    (Except.error x : Except ε α) >>= f = Except.error x := rfl

theorem bindEqOk {ε α β : Type _} {e : Except ε α} {f : α → Except ε β} {b : β}
    (h : e >>= f = .ok b) : ∃ a, e = .ok a ∧ f a = .ok b := by
  cases e with
  | error x => exact absurd h (by simp [errThen])
  | ok a => exact ⟨a, rfl, h⟩

/-- Claim **C3** (amended): for every tool name and every arguments mapping whose
`location` value (if present) is a string, `call_tool` raises nothing: the
whole `try` body — resolver, fetcher, formatter — is caught and converted to
text.  With the key unset it returns the configuration-error text (before even
reading the arguments); with the key set, an absent/empty location returns the
validation text; an unrecognized tool name (here with a locally-resolvable
location) returns the unknown-tool text. -/
theorem call_tool_never_raises_for_string_location :
    (∀ (apiKey : Option String) (name : String) (args : List (String × J))
        (client : String → Nat → HttpOutcome) (flRepr : ℚ → String)
        (fmtTime : String → ℚ → String),
        locationArgString args = true →
        ∃ texts, call_tool apiKey name args client flRepr fmtTime = .ok texts) ∧
    (∀ (apiKey : Option String) (name : String) (args : List (String × J))
        (client : String → Nat → HttpOutcome) (flRepr : ℚ → String)
        (fmtTime : String → ℚ → String),
        apiKeyFalsy apiKey = true →
        call_tool apiKey name args client flRepr fmtTime = .ok [configErrText]) ∧
    (∀ (apiKey : Option String) (name : String) (args : List (String × J))
        (client : String → Nat → HttpOutcome) (flRepr : ℚ → String)
        (fmtTime : String → ℚ → String) (rawLoc : String),
        apiKeyFalsy apiKey = false →
        (jLookup args "location").getD (J.s "") = J.s rawLoc →
        (pyStrip rawLoc).isEmpty = true →
        call_tool apiKey name args client flRepr fmtTime = .ok [locationErrText]) ∧
    (∀ (apiKey : Option String) (name : String)
        (client : String → Nat → HttpOutcome) (flRepr : ℚ → String)
        (fmtTime : String → ℚ → String),
        apiKeyFalsy apiKey = false →
        name ≠ "get_current_weather" → name ≠ "get_weather_forecast" →
        name ≠ "get_air_quality" →
        call_tool apiKey name [("location", J.s "0,0")] client flRepr fmtTime =
          .ok ["Error: Unknown tool \x27" ++ name ++ "\x27"]) := by
  refine ⟨?_, ?_, ?_, ?_⟩
  · intro apiKey name args client flRepr fmtTime hloc
    cases hk : apiKeyFalsy apiKey with
    | true => exact ⟨[configErrText], by simp [call_tool, hk]⟩
    | false =>
      simp only [call_tool, hk, Bool.false_eq_true, if_false]
      cases hv : (jLookup args "location").getD (J.s "") with
      | s rawLoc =>
        cases he : (pyStrip rawLoc).isEmpty with
        | true => exact ⟨[locationErrText], by simp [he]⟩
        | false =>
          simp only [he, Bool.false_eq_true, if_false]
          split
          · next texts _ => exact ⟨texts, rfl⟩
          · next m _ => exact ⟨["Error: " ++ m], rfl⟩
          · next e _ _ => exact ⟨["Unexpected error: " ++ e.text], rfl⟩
      | null => simp [locationArgString, hv] at hloc
      | b bv => simp [locationArgString, hv] at hloc
      | i iv => simp [locationArgString, hv] at hloc
      | f qv => simp [locationArgString, hv] at hloc
      | arr av => simp [locationArgString, hv] at hloc
      | obj ov => simp [locationArgString, hv] at hloc
  · intro apiKey name args client flRepr fmtTime hk
    simp [call_tool, hk]
  · intro apiKey name args client flRepr fmtTime rawLoc hk hv he
    simp [call_tool, hk, hv, he]
  · intro apiKey name client flRepr fmtTime hk h1 h2 h3
    have hg : get_coordinates (pyStrip "0,0") client =
        (.ok (J.f (roundToF64 0), J.f (roundToF64 0)), false) := by
      with_unfolding_all rfl
    simp only [call_tool, hk, Bool.false_eq_true, if_false, jLookup, eq_self_iff_true,
      if_true, if_neg (show ¬("location" = "units") from by decide), Option.getD_some,
      Option.getD_none]
    rw [show (pyStrip "0,0").isEmpty = false from rfl]
    simp only [Bool.false_eq_true, if_false, hg, okThen, if_neg h1, if_neg h2, if_neg h3]
    rfl

/-- Witness for the amended C3 theorem: a concrete dispatch through each listed
behaviour. -/
theorem call_tool_never_raises_for_string_location_witness :
    (∃ texts, call_tool (some "key") "get_current_weather"
        [("location", J.s "London")] (fun _ _ => .timeout) (fun _ => "")
        (fun _ _ => "") = .ok texts) ∧
    call_tool none "get_current_weather" [] (fun _ _ => .timeout) (fun _ => "")
        (fun _ _ => "") = .ok [configErrText] ∧
    call_tool (some "key") "get_current_weather" [] (fun _ _ => .timeout)
        (fun _ => "") (fun _ _ => "") = .ok [locationErrText] ∧
    call_tool (some "key") "frobnicate" [("location", J.s "0,0")]
        (fun _ _ => .timeout) (fun _ => "") (fun _ _ => "") =
      .ok ["Error: Unknown tool \x27frobnicate\x27"] :=
  ⟨call_tool_never_raises_for_string_location.1 _ _ _ _ _ _ rfl,
   call_tool_never_raises_for_string_location.2.1 _ _ _ _ _ _ rfl,
   call_tool_never_raises_for_string_location.2.2.1 _ _ _ _ _ _ "" rfl rfl rfl,
   call_tool_never_raises_for_string_location.2.2.2 _ _ _ _ _ rfl
     (by decide) (by decide) (by decide)⟩

/-- Claim **C3** (counterexample to the claim as stated): with the API key set and a
non-string `location` value, the `.strip()` in the argument validation —
outside the `try` block — raises `AttributeError` out of `call_tool`. -/
theorem call_tool_nonstring_location_raises :
    call_tool (some "key") "get_current_weather" [("location", J.i 5)]
      (fun _ _ => .timeout) (fun _ => "") (fun _ _ => "") =
    .error (.attributeError "\x27int\x27 object has no attribute \x27strip\x27") := by
  with_unfolding_all rfl

/-- The rain-probability line of a forecast entry contains
`"Rain probability: " ++ X ++ "%"` wherever it is embedded. -/
theorem contains_rain_line (pre x : String) :
    strContains (pre ++ "   🌧️ Rain probability: " ++ x ++ "%\n\n")
      ("Rain probability: " ++ x ++ "%") = true := by
  have h1 : pre ++ "   🌧️ Rain probability: " ++ x ++ "%\n\n" =
      (pre ++ "   🌧️ ") ++ ("Rain probability: " ++ x ++ "%") ++ "\n\n" := by
    rw [show ("   🌧️ Rain probability: " : String) = "   🌧️ " ++ "Rain probability: "
        from rfl,
      show ("%\n\n" : String) = "%" ++ "\n\n" from rfl]
    simp only [String.append_assoc]
  rw [h1]
  exact strContains_middle _ _ _

/-- Claim **C7** (counterexample to the claim as stated): an entry with
`pop = 0.5` renders `"Rain probability: 50%"` — zero decimal places, not the
one decimal place (`"50.0"`) the claim asserts. -/
theorem forecast_pop_one_decimal_counterexample :
    ∃ out, format_forecast_response (fun _ => "") (fun _ _ => "T")
        (J.obj [("city", J.obj []),
          ("list", J.arr [J.obj [("pop", J.f (roundToF64 (1 / 2)))]])])
        (J.s "celsius") = .ok out ∧
      strContains out "Rain probability: 50%" = true ∧
      strContains out "50.0" = false :=
  ⟨_, by with_unfolding_all rfl, by with_unfolding_all rfl, by with_unfolding_all rfl⟩

/-- Claim **C7** (amended): `format_forecast_response` renders exactly the first 8
entries (`l.take 8`) of the payload list, and each rendered entry shows the
precipitation probability as the fraction × 100 rounded to an integer with
*no* decimal places (`%.0f`). -/
theorem forecast_renders_first8_and_integer_pop :
    (∀ (flRepr : ℚ → String) (fmtTime : String → ℚ → String) (unit : J)
        (kvs : List (String × J)) (l : List J),
        jLookup kvs "list" = some (J.arr l) →
        format_forecast_response flRepr fmtTime (J.obj kvs) unit = (do
          let city ← jGetD (J.obj kvs) "city" (J.obj [])
          let cityName ← jGetD city "name" (J.s "Unknown location")
          let coord ← jGetD city "coord" (J.obj [])
          let lat ← jGetD coord "lat" (J.i 0)
          let coord2 ← jGetD city "coord" (J.obj [])
          let lon ← jGetD coord2 "lon" (J.i 0)
          let entries ← forecastEntriesText flRepr fmtTime unit (l.take 8)
          pure (pyStrip (("🌍 5-Day Forecast for " ++ pyStr flRepr cityName ++ "\n" ++
            "📍 Coordinates: " ++ pyStr flRepr lat ++ ", " ++ pyStr flRepr lon ++ "\n\n")
            ++ entries ++ rateLimitWarning)))) ∧
    (∀ (flRepr : ℚ → String) (fmtTime : String → ℚ → String) (unit fc : J)
        (q : ℚ) (s : String),
        (jGetD fc "pop" (J.i 0) >>= jToFloat) = .ok q →
        forecastEntryText flRepr fmtTime unit fc = .ok s →
        strContains s ("Rain probability: " ++ fmtFixed 0 (fMul q 100) ++ "%") = true) := by
  constructor
  · intro flRepr fmtTime unit kvs l hlist
    have hkvs : kvs.isEmpty = false := by
      cases kvs with
      | nil => simp [jLookup] at hlist
      | cons hd tl => rfl
    simp only [format_forecast_response, jTruthy, hkvs, Bool.not_false, Bool.not_true,
      Bool.false_eq_true, if_false, jNotIn, hlist, Option.isNone_some, okThen,
      jGetD, Option.getD_some, jSliceFirst8]
  · intro flRepr fmtTime unit fc q s hpop hentry
    simp only [forecastEntryText] at hentry
    obtain ⟨dtv, hdtv, hentry⟩ := bindEqOk hentry
    obtain ⟨dtq, hdtq, hentry⟩ := bindEqOk hentry
    obtain ⟨main, hmain, hentry⟩ := bindEqOk hentry
    obtain ⟨weather, hweather, hentry⟩ := bindEqOk hentry
    obtain ⟨wind, hwind, hentry⟩ := bindEqOk hentry
    obtain ⟨tv, htv, hentry⟩ := bindEqOk hentry
    obtain ⟨temp, htemp, hentry⟩ := bindEqOk hentry
    obtain ⟨fv, hfv, hentry⟩ := bindEqOk hentry
    obtain ⟨feels, hfeels, hentry⟩ := bindEqOk hentry
    obtain ⟨condMain, hcm, hentry⟩ := bindEqOk hentry
    obtain ⟨condDesc, hcd, hentry⟩ := bindEqOk hentry
    obtain ⟨humidity, hhum, hentry⟩ := bindEqOk hentry
    obtain ⟨windSpeed, hws, hentry⟩ := bindEqOk hentry
    obtain ⟨popV, hpv, hentry⟩ := bindEqOk hentry
    obtain ⟨popQ, hpq, hentry⟩ := bindEqOk hentry
    have hq : popQ = q := by
      obtain ⟨pv2, hp2, hf2⟩ := bindEqOk hpop
      rw [hpv] at hp2
      injection hp2 with hp2
      subst hp2
      rw [hpq] at hf2
      injection hf2
    subst hq
    simp only [pure, Except.pure] at hentry
    injection hentry with hs
    rw [← hs]
    exact contains_rain_line _ _

/-- Witness for the amended C7 theorem: the empty-list payload and a
default-fields entry. -/
theorem forecast_renders_first8_and_integer_pop_witness :
    format_forecast_response (fun _ => "") (fun _ _ => "T")
        (J.obj [("list", J.arr [])]) (J.s "celsius") =
      .ok ("🌍 5-Day Forecast for Unknown location\n📍 Coordinates: 0, 0\n\n" ++
        rateLimitWarning) ∧
    (∃ s, forecastEntryText (fun _ => "") (fun _ _ => "T") (J.s "celsius") (J.obj []) =
        .ok s ∧
      strContains s ("Rain probability: " ++ fmtFixed 0 (fMul (roundToF64 0) 100) ++ "%") =
        true) :=
  ⟨Eq.trans (forecast_renders_first8_and_integer_pop.1 (fun _ => "") (fun _ _ => "T")
      (J.s "celsius") [("list", J.arr [])] [] rfl) (by with_unfolding_all rfl),
   ⟨_, by with_unfolding_all rfl,
    forecast_renders_first8_and_integer_pop.2 (fun _ => "") (fun _ _ => "T")
      (J.s "celsius") (J.obj []) (roundToF64 0) _ (by with_unfolding_all rfl)
      (by with_unfolding_all rfl)⟩⟩

theorem strContains_at_juncture (a n b : String) :
    strContains (a ++ (n ++ b)) n = true := by
  simp only [strContains, String.data_append]
  exact hasSubChars_at_juncture _ _ _

theorem startsWithChars_extend (n : List Char) : ∀ (h b : List Char),
    startsWithChars n h = true → startsWithChars n (h ++ b) = true := by
  induction n with
  | nil => intro h b _; rfl
  | cons c cs ih =>
    intro h b hp
    cases h with
    | nil => exact absurd hp (by simp [startsWithChars])
    | cons c2 hs =>
      simp only [startsWithChars, Bool.and_eq_true] at hp ⊢
      exact ⟨hp.1, ih hs b hp.2⟩

theorem hasSubChars_append_of_left (n : List Char) : ∀ (a b : List Char),
    hasSubChars n a = true → hasSubChars n (a ++ b) = true := by
  intro a
  induction a with
  | nil =>
    intro b h
    cases n with
    | nil => cases b <;> simp [hasSubChars, startsWithChars]
    | cons c cs => exact absurd h (by simp [hasSubChars])
  | cons c rest ih =>
    intro b h
    simp only [hasSubChars, Bool.or_eq_true] at h ⊢
    cases h with
    | inl hp => exact Or.inl (startsWithChars_extend n _ b hp)
    | inr hs => exact Or.inr (ih b hs)

theorem strContains_append_of_left (a b n : String)
    (h : strContains a n = true) : strContains (a ++ b) n = true := by
  simp only [strContains, String.data_append]
  exact hasSubChars_append_of_left _ _ _ h

theorem pyStrip_wrap_ex (t : String) (c d : Char)
    (hc : isPySpace c = false) (hd : isPySpace d = false)
    (hhead : ∃ tl, t.data = c :: tl) (hlast : ∃ tl, t.data.reverse = d :: tl) :
    pyStrip ("\n" ++ t ++ "\n") = t := by
  obtain ⟨ct, hh⟩ := hhead
  obtain ⟨dt, hl⟩ := hlast
  exact pyStrip_wrap t c d ct dt hh hc hl hd

/-- A stripped `"\n" ++ body ++ "\n"` sandwich contains the needle `n`
embedded after `lead` and before `rest ++ w`. -/
theorem strip_wrap_contains (lead n rest w : String) (c d : Char)
    (hc : isPySpace c = false) (hd : isPySpace d = false)
    (hhead : ∃ tl, ((lead ++ (n ++ rest)) ++ w).data = c :: tl)
    (hlast : ∃ tl, ((lead ++ (n ++ rest)) ++ w).data.reverse = d :: tl) :
    strContains (pyStrip ("\n" ++ ((lead ++ (n ++ rest)) ++ w) ++ "\n")) n = true := by
  rw [pyStrip_wrap_ex _ c d hc hd hhead hlast]
  exact strContains_append_of_left _ _ _ (strContains_at_juncture _ _ _)

theorem jGetD_ok_shape {v : J} {k : String} {d x : J} (h : jGetD v k d = .ok x) :
    ∃ kvs, v = J.obj kvs := by
  cases v <;> first
    | exact ⟨_, rfl⟩
    | simp [jGetD] at h

/-- Claim **C8**: the AQI label map sends 1,2,3,4,5 to Good, Fair, Moderate, Poor,
Very Poor and every other integer (including the default 0) to Unknown; and
every well-formed output for a payload whose first list entry has
`main.aqi = 2` contains the substring `"2 - Fair"`. -/
theorem air_quality_aqi_labels_and_fair :
    (∀ n : Int, aqiLabel (J.i n) = (if n = 1 then "Good" else if n = 2 then "Fair"
      else if n = 3 then "Moderate" else if n = 4 then "Poor"
      else if n = 5 then "Very Poor" else "Unknown")) ∧
    (∀ (flRepr : ℚ → String) (fmtTime : String → ℚ → String)
        (kvs : List (String × J)) (entry : J) (restL : List J) (out : String),
        jLookup kvs "list" = some (J.arr (entry :: restL)) →
        (jGetD entry "main" (J.obj []) >>= fun m => jGetD m "aqi" (J.i 0)) =
          .ok (J.i 2) →
        format_air_quality_response flRepr fmtTime (J.obj kvs) = .ok out →
        strContains out "2 - Fair" = true) := by
  constructor
  · intro n
    simp [aqiLabel, pyEqInt]
  · intro flRepr fmtTime kvs entry restL out hlist haqi hout
    obtain ⟨m, hm, haqi2⟩ := bindEqOk haqi
    obtain ⟨ef, rfl⟩ := jGetD_ok_shape hm
    obtain ⟨mf, rfl⟩ := jGetD_ok_shape haqi2
    have hm2 : (jLookup ef "main").getD (J.obj []) = J.obj mf := by
      simpa [jGetD] using hm
    have haqi3 : (jLookup mf "aqi").getD (J.i 0) = J.i 2 := by
      simpa [jGetD] using haqi2
    have hkvs : kvs.isEmpty = false := by
      cases kvs with
      | nil => simp [jLookup] at hlist
      | cons hd tl => rfl
    simp only [format_air_quality_response, jTruthy, hkvs, Bool.not_false, Bool.not_true,
      Bool.false_eq_true, if_false, jNotIn, hlist, Option.isNone_some, okThen,
      jItemStr, jItemNat, List.get?, List.isEmpty_cons, jGetD, Option.getD_some,
      hm2, haqi3,
      show aqiLabelLookup (J.i 2) = Except.ok "Fair" from rfl,
      show pyStr flRepr (J.i 2) = "2" from rfl] at hout
    obtain ⟨dtq, hdtq, hout⟩ := bindEqOk hout
    obtain ⟨co, hco, hout⟩ := bindEqOk hout
    obtain ⟨no, hno, hout⟩ := bindEqOk hout
    obtain ⟨no2, hno2, hout⟩ := bindEqOk hout
    obtain ⟨o3, ho3, hout⟩ := bindEqOk hout
    obtain ⟨so2, hso2, hout⟩ := bindEqOk hout
    obtain ⟨pm25, hpm25, hout⟩ := bindEqOk hout
    obtain ⟨pm10, hpm10, hout⟩ := bindEqOk hout
    obtain ⟨nh3, hnh3, hout⟩ := bindEqOk hout
    simp only [pure, Except.pure] at hout
    injection hout with hs
    rw [← hs]
    rw [show "\n🌫️ Air Quality Index (AQI): " ++ "2" ++ " - " ++ "Fair" ++
        "\n📅 Time: " ++ fmtTime "%Y-%m-%d %H:%M:%S" dtq ++
        "\n\nComponents (μg/m³):" ++
        "\n  CO (Carbon monoxide): " ++ co ++
        "\n  NO (Nitrogen monoxide): " ++ no ++
        "\n  NO₂ (Nitrogen dioxide): " ++ no2 ++
        "\n  O₃ (Ozone): " ++ o3 ++
        "\n  SO₂ (Sulphur dioxide): " ++ so2 ++
        "\n  PM2.5 (Fine particles): " ++ pm25 ++
        "\n  PM10 (Coarse particles): " ++ pm10 ++
        "\n  NH₃ (Ammonia): " ++ nh3 ++
        "\n\n" ++ rateLimitWarning ++ "\n" =
      "\n" ++ (("🌫️ Air Quality Index (AQI): " ++ ("2 - Fair" ++
        ("\n📅 Time: " ++ fmtTime "%Y-%m-%d %H:%M:%S" dtq ++
        "\n\nComponents (μg/m³):" ++
        "\n  CO (Carbon monoxide): " ++ co ++
        "\n  NO (Nitrogen monoxide): " ++ no ++
        "\n  NO₂ (Nitrogen dioxide): " ++ no2 ++
        "\n  O₃ (Ozone): " ++ o3 ++
        "\n  SO₂ (Sulphur dioxide): " ++ so2 ++
        "\n  PM2.5 (Fine particles): " ++ pm25 ++
        "\n  PM10 (Coarse particles): " ++ pm10 ++
        "\n  NH₃ (Ammonia): " ++ nh3 ++
        "\n\n"))) ++ rateLimitWarning) ++ "\n" from by
      simp only [String.append_assoc]
      rfl]
    exact strip_wrap_contains _ _ _ _ '🌫' '.' rfl rfl ⟨_, rfl⟩
      ⟨_, by rw [String.data_append, List.reverse_append]; rfl⟩

/-- Witness for C8: a concrete payload with `main.aqi = 2`. -/
theorem air_quality_aqi_labels_and_fair_witness :
    ∃ out, format_air_quality_response (fun _ => "") (fun _ _ => "T")
        (J.obj [("list", J.arr [J.obj [("main", J.obj [("aqi", J.i 2)])]])]) =
      .ok out ∧ strContains out "2 - Fair" = true :=
  ⟨_, by with_unfolding_all rfl,
   air_quality_aqi_labels_and_fair.2 (fun _ => "") (fun _ _ => "T")
     [("list", J.arr [J.obj [("main", J.obj [("aqi", J.i 2)])]])]
     (J.obj [("main", J.obj [("aqi", J.i 2)])]) [] _ rfl (by with_unfolding_all rfl)
     (by with_unfolding_all rfl)⟩

/-! ## Totality of the formatters on well-shaped payloads -/

theorem okStep {ε α β : Type _} {e : Except ε α} {f : α → Except ε β} {a₀ : α}
    (he : e = .ok a₀) (hf : ∃ b, f a₀ = .ok b) : ∃ b, e >>= f = .ok b := by
  obtain ⟨b, hb⟩ := hf
  exact ⟨b, by rw [he, okThen, hb]⟩

theorem jToFloat_getD_num (o : Option J) (h : wsOptNum o = true) :
    ∃ q, jToFloat (o.getD (J.i 0)) = .ok q := by
  cases o with
  | none => exact ⟨_, rfl⟩
  | some v =>
    cases v with
    | i n => exact ⟨_, rfl⟩
    | f q => exact ⟨_, rfl⟩
    | b bv => exact ⟨_, rfl⟩
    | null => exact absurd h (by simp [wsOptNum])
    | s sv => exact absurd h (by simp [wsOptNum])
    | arr l => exact absurd h (by simp [wsOptNum])
    | obj l => exact absurd h (by simp [wsOptNum])

theorem getD_obj_of_wsOptObj (o : Option J) (h : wsOptObj o = true) :
    ∃ f, o.getD (J.obj []) = J.obj f := by
  cases o with
  | none => exact ⟨[], rfl⟩
  | some v =>
    cases v with
    | obj l => exact ⟨l, rfl⟩
    | null => exact absurd h (by simp [wsOptObj])
    | b bv => exact absurd h (by simp [wsOptObj])
    | i n => exact absurd h (by simp [wsOptObj])
    | f q => exact absurd h (by simp [wsOptObj])
    | s sv => exact absurd h (by simp [wsOptObj])
    | arr l => exact absurd h (by simp [wsOptObj])

theorem weather_field_shape (v : J) (h : isWeatherArr v = true) :
    ∃ ef es, v = J.arr (J.obj ef :: es) := by
  match v, h with
  | J.arr (J.obj ef :: es), _ => exact ⟨ef, es, rfl⟩

theorem obj_shape (v : J) (h : isObjJ v = true) : ∃ vf, v = J.obj vf := by
  match v, h with
  | J.obj vf, _ => exact ⟨vf, rfl⟩

theorem format_temperature_ok (unit v : J) (q : ℚ) (hq : jToFloat v = .ok q) :
    ∃ s, format_temperature v unit = .ok s := by
  simp only [format_temperature]
  cases isStrEq unit "fahrenheit" <;> cases isStrEq unit "kelvin" <;>
    simp only [Bool.false_eq_true, if_false, if_true, hq, okThen] <;>
    exact ⟨_, rfl⟩

theorem firstWeatherEntry_ok (kvs : List (String × J))
    (h : wsWeatherField (jLookup kvs "weather") = true) :
    ∃ wf, firstWeatherEntry (J.obj kvs) = .ok (J.obj wf) := by
  simp only [firstWeatherEntry, jGetD, okThen]
  cases hw : jLookup kvs "weather" with
  | none => exact ⟨[], rfl⟩
  | some v =>
    rw [hw] at h
    simp only [wsWeatherField, Bool.or_eq_true, Bool.not_eq_true'] at h
    simp only [Option.getD_some]
    split
    · next ht =>
      replace h : isWeatherArr v = true := by
        rcases h with h | h
        · rw [ht] at h; cases h
        · exact h
      obtain ⟨ef, es, rfl⟩ := weather_field_shape v h
      exact ⟨ef, by simp [jItemStr, hw, jItemNat, okThen]⟩
    · exact ⟨[], rfl⟩

theorem accumLine_ok (flRepr : ℚ → String) (kvs : List (String × J)) (key : String)
    (mark base : String) (h : wsGuardedObj (jLookup kvs key) = true) :
    ∃ s, accumLine flRepr (J.obj kvs) key mark base = .ok s := by
  simp only [accumLine, jGetD, okThen]
  cases hk : jLookup kvs key with
  | none => exact ⟨base, rfl⟩
  | some v =>
    rw [hk] at h
    simp only [wsGuardedObj, Bool.or_eq_true, Bool.not_eq_true'] at h
    simp only [Option.getD_some]
    split
    · next ht =>
      replace h : isObjJ v = true := by
        rcases h with h | h
        · rw [ht] at h; cases h
        · exact h
      obtain ⟨vf, rfl⟩ := obj_shape v h
      exact ⟨base ++ mark ++ pyStr flRepr ((jLookup vf "1h").getD (J.i 0)) ++ " mm\n", by
        simp only [jItemStr, hk, jGetD, okThen]
        rfl⟩
    · exact ⟨base, rfl⟩

theorem okStepAll {ε α β : Type _} {e : Except ε α} {f : α → Except ε β}
    (he : ∃ a, e = .ok a) (hf : ∀ a, ∃ b, f a = .ok b) :
    ∃ b, e >>= f = .ok b := by
  obtain ⟨a, ha⟩ := he
  exact okStep ha (hf a)

theorem format_weather_response_total (flRepr : ℚ → String)
    (fmtTime : String → ℚ → String) (unit d : J) (h : wsWeather d = true) :
    ∃ s, format_weather_response flRepr fmtTime d unit = .ok s := by
  cases d
  case null => exact absurd h (by simp [wsWeather])
  case b => exact absurd h (by simp [wsWeather])
  case i => exact absurd h (by simp [wsWeather])
  case f => exact absurd h (by simp [wsWeather])
  case s => exact absurd h (by simp [wsWeather])
  case arr => exact absurd h (by simp [wsWeather])
  case obj kvs =>
  cases hm : jLookup kvs "main" with
  | none =>
    cases kvs with
    | nil => exact ⟨"No weather data available.", rfl⟩
    | cons a tl =>
      exact ⟨"No weather data available.", by
        simp [format_weather_response, jTruthy, jNotIn, hm, okThen]
        rfl⟩
  | some m =>
    have hkvs : kvs.isEmpty = false := by
      cases kvs with
      | nil => simp [jLookup] at hm
      | cons a tl => rfl
    simp only [wsWeather, hm] at h
    cases m
    case null => exact absurd h (by simp)
    case b => exact absurd h (by simp)
    case i => exact absurd h (by simp)
    case f => exact absurd h (by simp)
    case s => exact absurd h (by simp)
    case arr => exact absurd h (by simp)
    case obj mf =>
    simp only [Bool.and_eq_true] at h
    obtain ⟨⟨⟨⟨⟨⟨⟨⟨⟨h1, h2⟩, h3⟩, h4⟩, h5⟩, h6⟩, h7⟩, h8⟩, h9⟩, h10⟩ := h
    obtain ⟨q1, hq1⟩ := jToFloat_getD_num _ h1
    obtain ⟨t1, ht1⟩ := format_temperature_ok unit _ _ hq1
    obtain ⟨q2, hq2⟩ := jToFloat_getD_num _ h2
    obtain ⟨t2, ht2⟩ := format_temperature_ok unit _ _ hq2
    obtain ⟨q3, hq3⟩ := jToFloat_getD_num _ h3
    obtain ⟨t3, ht3⟩ := format_temperature_ok unit _ _ hq3
    obtain ⟨q4, hq4⟩ := jToFloat_getD_num _ h4
    obtain ⟨t4, ht4⟩ := format_temperature_ok unit _ _ hq4
    obtain ⟨wf, hwf⟩ := firstWeatherEntry_ok kvs h5
    obtain ⟨windf, hwind⟩ := getD_obj_of_wsOptObj _ h6
    obtain ⟨cloudsf, hclouds⟩ := getD_obj_of_wsOptObj _ h7
    obtain ⟨qdt, hqdt⟩ := jToFloat_getD_num _ h8
    simp only [format_weather_response]
    rw [show jTruthy (J.obj kvs) = true from by simp [jTruthy, hkvs]]
    simp only [Bool.not_true, Bool.false_eq_true, if_false]
    refine okStep (show jNotIn "main" (J.obj kvs) = .ok false from by
      simp [jNotIn, hm]) ?_
    simp only [Bool.false_eq_true, if_false]
    refine okStep (show jItemStr (J.obj kvs) "main" = .ok (J.obj mf) from by
      simp [jItemStr, hm]) ?_
    refine okStep hwf ?_
    refine okStep (show jGetD (J.obj kvs) "wind" (J.obj []) = .ok (J.obj windf) from by
      simp [jGetD, hwind]) ?_
    refine okStep (show jGetD (J.obj kvs) "clouds" (J.obj []) = .ok (J.obj cloudsf) from by
      simp [jGetD, hclouds]) ?_
    refine okStep (show jGetD (J.obj mf) "temp" (J.i 0) = .ok _ from rfl) ?_
    refine okStep ht1 ?_
    refine okStep (show jGetD (J.obj mf) "feels_like" (J.i 0) = .ok _ from rfl) ?_
    refine okStep ht2 ?_
    refine okStep (show jGetD (J.obj mf) "temp_min" (J.i 0) = .ok _ from rfl) ?_
    refine okStep ht3 ?_
    refine okStep (show jGetD (J.obj mf) "temp_max" (J.i 0) = .ok _ from rfl) ?_
    refine okStep ht4 ?_
    refine okStep (show jGetD (J.obj kvs) "name" (J.s "Unknown location") = .ok _ from rfl) ?_
    refine okStep (show jGetD (J.obj kvs) "dt" (J.i 0) = .ok _ from rfl) ?_
    refine okStep hqdt ?_
    refine okStep (show jGetD (J.obj wf) "main" (J.s "Unknown") = .ok _ from rfl) ?_
    refine okStep (show jGetD (J.obj wf) "description" (J.s "No description") = .ok _ from rfl) ?_
    refine okStep (show jGetD (J.obj mf) "humidity" (J.i 0) = .ok _ from rfl) ?_
    refine okStep (show jGetD (J.obj mf) "pressure" (J.i 0) = .ok _ from rfl) ?_
    refine okStep (show jGetD (J.obj windf) "speed" (J.i 0) = .ok _ from rfl) ?_
    refine okStep (show jGetD (J.obj windf) "deg" (J.i 0) = .ok _ from rfl) ?_
    refine okStep (show jGetD (J.obj cloudsf) "all" (J.i 0) = .ok _ from rfl) ?_
    refine okStepAll (accumLine_ok flRepr kvs "rain" _ _ h9) (fun withRain => ?_)
    refine okStepAll (accumLine_ok flRepr kvs "snow" _ _ h10) (fun withSnow => ?_)
    exact ⟨_, rfl⟩

theorem forecastEntryText_total (flRepr : ℚ → String) (fmtTime : String → ℚ → String)
    (unit e : J) (h : wsForecastEntry e = true) :
    ∃ s, forecastEntryText flRepr fmtTime unit e = .ok s := by
  cases e
  case null => exact absurd h (by simp [wsForecastEntry])
  case b => exact absurd h (by simp [wsForecastEntry])
  case i => exact absurd h (by simp [wsForecastEntry])
  case f => exact absurd h (by simp [wsForecastEntry])
  case s => exact absurd h (by simp [wsForecastEntry])
  case arr => exact absurd h (by simp [wsForecastEntry])
  case obj ef =>
  simp only [wsForecastEntry, Bool.and_eq_true] at h
  obtain ⟨⟨⟨⟨hdt, hmain⟩, hweather⟩, hwind⟩, hpop⟩ := h
  have hM : ∃ mf, (jLookup ef "main").getD (J.obj []) = J.obj mf ∧
      wsOptNum (jLookup mf "temp") = true ∧ wsOptNum (jLookup mf "feels_like") = true := by
    cases hm : jLookup ef "main" with
    | none => exact ⟨[], rfl, rfl, rfl⟩
    | some m =>
      rw [hm] at hmain
      cases m
      case obj mf =>
        simp only [Bool.and_eq_true] at hmain
        exact ⟨mf, rfl, hmain.1, hmain.2⟩
      all_goals exact absurd hmain (by simp)
  obtain ⟨mf, hmf, htempn, hfeelsn⟩ := hM
  obtain ⟨qdt, hqdt⟩ := jToFloat_getD_num _ hdt
  obtain ⟨q1, hq1⟩ := jToFloat_getD_num _ htempn
  obtain ⟨t1, ht1⟩ := format_temperature_ok unit _ _ hq1
  obtain ⟨q2, hq2⟩ := jToFloat_getD_num _ hfeelsn
  obtain ⟨t2, ht2⟩ := format_temperature_ok unit _ _ hq2
  obtain ⟨wf, hwf⟩ := firstWeatherEntry_ok ef hweather
  obtain ⟨windf, hwind2⟩ := getD_obj_of_wsOptObj _ hwind
  obtain ⟨qp, hqp⟩ := jToFloat_getD_num _ hpop
  simp only [forecastEntryText]
  refine okStep (show jGetD (J.obj ef) "dt" (J.i 0) = .ok _ from rfl) ?_
  refine okStep hqdt ?_
  refine okStep (show jGetD (J.obj ef) "main" (J.obj []) = .ok (J.obj mf) from by
    simp [jGetD, hmf]) ?_
  refine okStep hwf ?_
  refine okStep (show jGetD (J.obj ef) "wind" (J.obj []) = .ok (J.obj windf) from by
    simp [jGetD, hwind2]) ?_
  refine okStep (show jGetD (J.obj mf) "temp" (J.i 0) = .ok _ from rfl) ?_
  refine okStep ht1 ?_
  refine okStep (show jGetD (J.obj mf) "feels_like" (J.i 0) = .ok _ from rfl) ?_
  refine okStep ht2 ?_
  refine okStep (show jGetD (J.obj wf) "main" (J.s "Unknown") = .ok _ from rfl) ?_
  refine okStep (show jGetD (J.obj wf) "description" (J.s "No description") = .ok _
    from rfl) ?_
  refine okStep (show jGetD (J.obj mf) "humidity" (J.i 0) = .ok _ from rfl) ?_
  refine okStep (show jGetD (J.obj windf) "speed" (J.i 0) = .ok _ from rfl) ?_
  refine okStep (show jGetD (J.obj ef) "pop" (J.i 0) = .ok _ from rfl) ?_
  refine okStep hqp ?_
  exact ⟨_, rfl⟩

theorem forecastEntriesText_total (flRepr : ℚ → String) (fmtTime : String → ℚ → String)
    (unit : J) (l : List J) (h : ∀ e ∈ l, wsForecastEntry e = true) :
    ∃ s, forecastEntriesText flRepr fmtTime unit l = .ok s := by
  induction l with
  | nil => exact ⟨"", rfl⟩
  | cons e rest ih =>
    simp only [forecastEntriesText]
    refine okStepAll (forecastEntryText_total _ _ _ _ (h e (by simp))) (fun s1 => ?_)
    refine okStepAll (ih (fun x hx => h x (by simp [hx]))) (fun s2 => ?_)
    exact ⟨_, rfl⟩

theorem format_forecast_response_total (flRepr : ℚ → String)
    (fmtTime : String → ℚ → String) (unit d : J) (h : wsForecast d = true) :
    ∃ s, format_forecast_response flRepr fmtTime d unit = .ok s := by
  cases d
  case null => exact absurd h (by simp [wsForecast])
  case b => exact absurd h (by simp [wsForecast])
  case i => exact absurd h (by simp [wsForecast])
  case f => exact absurd h (by simp [wsForecast])
  case s => exact absurd h (by simp [wsForecast])
  case arr => exact absurd h (by simp [wsForecast])
  case obj kvs =>
  cases hl : jLookup kvs "list" with
  | none =>
    cases kvs with
    | nil => exact ⟨"No forecast data available.", rfl⟩
    | cons a tl =>
      exact ⟨"No forecast data available.", by
        simp [format_forecast_response, jTruthy, jNotIn, hl, okThen]
        rfl⟩
  | some v =>
    have hkvs : kvs.isEmpty = false := by
      cases kvs with
      | nil => simp [jLookup] at hl
      | cons a tl => rfl
    simp only [wsForecast, hl] at h
    cases v
    case null => exact absurd h (by simp)
    case b => exact absurd h (by simp)
    case i => exact absurd h (by simp)
    case f => exact absurd h (by simp)
    case s => exact absurd h (by simp)
    case obj => exact absurd h (by simp)
    case arr es =>
    simp only [Bool.and_eq_true] at h
    obtain ⟨⟨hall, hcity⟩, hcoord⟩ := h
    have hC : ∃ cf, (jLookup kvs "city").getD (J.obj []) = J.obj cf ∧
        wsOptObj (jLookup cf "coord") = true := by
      cases hc : jLookup kvs "city" with
      | none => exact ⟨[], rfl, rfl⟩
      | some c =>
        rw [hc] at hcity hcoord
        cases c
        case obj cf => exact ⟨cf, rfl, hcoord⟩
        all_goals exact absurd hcity (by simp [wsOptObj])
    obtain ⟨cf, hcf, hcoordcf⟩ := hC
    obtain ⟨coordf, hcoordf⟩ := getD_obj_of_wsOptObj _ hcoordcf
    have hentries := forecastEntriesText_total flRepr fmtTime unit (es.take 8)
      (fun e he => by
        simp only [List.all_eq_true] at hall
        exact hall e (List.take_subset _ _ he))
    simp only [format_forecast_response]
    rw [show jTruthy (J.obj kvs) = true from by simp [jTruthy, hkvs]]
    simp only [Bool.not_true, Bool.false_eq_true, if_false]
    refine okStep (show jNotIn "list" (J.obj kvs) = .ok false from by
      simp [jNotIn, hl]) ?_
    simp only [Bool.false_eq_true, if_false]
    refine okStep (show jGetD (J.obj kvs) "city" (J.obj []) = .ok (J.obj cf) from by
      simp [jGetD, hcf]) ?_
    refine okStep (show jGetD (J.obj kvs) "list" (J.arr []) = .ok (J.arr es) from by
      simp [jGetD, hl]) ?_
    refine okStep (show jSliceFirst8 (J.arr es) = .ok (es.take 8) from rfl) ?_
    refine okStep (show jGetD (J.obj cf) "name" (J.s "Unknown location") = .ok _
      from rfl) ?_
    refine okStep (show jGetD (J.obj cf) "coord" (J.obj []) = .ok (J.obj coordf) from by
      simp [jGetD, hcoordf]) ?_
    refine okStep (show jGetD (J.obj coordf) "lat" (J.i 0) = .ok _ from rfl) ?_
    refine okStep (show jGetD (J.obj cf) "coord" (J.obj []) = .ok (J.obj coordf) from by
      simp [jGetD, hcoordf]) ?_
    refine okStep (show jGetD (J.obj coordf) "lon" (J.i 0) = .ok _ from rfl) ?_
    refine okStepAll hentries (fun entries => ?_)
    exact ⟨_, rfl⟩

theorem aqiLabelLookup_ok (v : J) (h : wsHashable v = true) :
    ∃ lb, aqiLabelLookup v = .ok lb := by
  cases v
  case arr => exact absurd h (by simp [wsHashable])
  case obj => exact absurd h (by simp [wsHashable])
  all_goals exact ⟨_, rfl⟩

theorem comp2fOk (cf : List (String × J)) (key : String)
    (h : wsOptNum (jLookup cf key) = true) :
    ∃ b, (do
      let c ← jGetD (J.obj cf) key (J.i 0)
      let q ← jToFloat c
      pure (fmtFixed 2 q) : Except PyExc String) = .ok b := by
  obtain ⟨q, hq⟩ := jToFloat_getD_num _ h
  exact ⟨fmtFixed 2 q, by
    refine Eq.trans ?_ (congrArg Except.ok rfl)
    simp only [jGetD, okThen, hq]
    rfl⟩

theorem format_air_quality_response_total (flRepr : ℚ → String)
    (fmtTime : String → ℚ → String) (d : J) (h : wsAir d = true) :
    ∃ s, format_air_quality_response flRepr fmtTime d = .ok s := by
  cases d
  case null => exact absurd h (by simp [wsAir])
  case b => exact absurd h (by simp [wsAir])
  case i => exact absurd h (by simp [wsAir])
  case f => exact absurd h (by simp [wsAir])
  case s => exact absurd h (by simp [wsAir])
  case arr => exact absurd h (by simp [wsAir])
  case obj kvs =>
  cases hl : jLookup kvs "list" with
  | none =>
    cases kvs with
    | nil => exact ⟨"No air quality data available.", rfl⟩
    | cons a tl =>
      exact ⟨"No air quality data available.", by
        simp [format_air_quality_response, jTruthy, jNotIn, hl, okThen]
        rfl⟩
  | some v =>
    have hkvs : kvs.isEmpty = false := by
      cases kvs with
      | nil => simp [jLookup] at hl
      | cons a tl => rfl
    simp only [wsAir, hl] at h
    cases ht : jTruthy v with
    | false =>
      simp only [format_air_quality_response]
      rw [show jTruthy (J.obj kvs) = true from by simp [jTruthy, hkvs]]
      simp only [Bool.not_true, Bool.false_eq_true, if_false]
      refine okStep (show jNotIn "list" (J.obj kvs) = .ok false from by
        simp [jNotIn, hl]) ?_
      simp only [Bool.false_eq_true, if_false]
      refine okStep (show jItemStr (J.obj kvs) "list" = .ok v from by
        simp [jItemStr, hl]) ?_
      rw [ht]
      simp only [Bool.not_false, if_true]
      exact ⟨_, rfl⟩
    | true =>
      rw [ht] at h
      simp only [eq_self_iff_true, if_true] at h
      cases v
      case null => exact absurd h (by simp)
      case b => exact absurd h (by simp)
      case i => exact absurd h (by simp)
      case f => exact absurd h (by simp)
      case s => exact absurd h (by simp)
      case obj => exact absurd h (by simp)
      case arr l =>
      cases l with
      | nil => exact absurd ht (by simp [jTruthy])
      | cons e es =>
      replace h : wsAirEntry e = true := h
      cases e
      case null => exact absurd h (by simp [wsAirEntry])
      case b => exact absurd h (by simp [wsAirEntry])
      case i => exact absurd h (by simp [wsAirEntry])
      case f => exact absurd h (by simp [wsAirEntry])
      case s => exact absurd h (by simp [wsAirEntry])
      case arr => exact absurd h (by simp [wsAirEntry])
      case obj ef =>
      simp only [wsAirEntry, Bool.and_eq_true] at h
      obtain ⟨⟨hmain, hdt⟩, hcomp⟩ := h
      have hM : ∃ mfa, (jLookup ef "main").getD (J.obj []) = J.obj mfa ∧
          wsHashable ((jLookup mfa "aqi").getD (J.i 0)) = true := by
        cases hm : jLookup ef "main" with
        | none => exact ⟨[], rfl, rfl⟩
        | some m =>
          rw [hm] at hmain
          cases m
          case obj mfa => exact ⟨mfa, rfl, hmain⟩
          all_goals exact absurd hmain (by simp)
      obtain ⟨mfa, hmfa, hhash⟩ := hM
      have hCp : ∃ cf, (jLookup ef "components").getD (J.obj []) = J.obj cf ∧
          wsOptNum (jLookup cf "co") = true ∧ wsOptNum (jLookup cf "no") = true ∧
          wsOptNum (jLookup cf "no2") = true ∧ wsOptNum (jLookup cf "o3") = true ∧
          wsOptNum (jLookup cf "so2") = true ∧ wsOptNum (jLookup cf "pm2_5") = true ∧
          wsOptNum (jLookup cf "pm10") = true ∧ wsOptNum (jLookup cf "nh3") = true := by
        cases hc : jLookup ef "components" with
        | none => exact ⟨[], rfl, rfl, rfl, rfl, rfl, rfl, rfl, rfl, rfl⟩
        | some c =>
          rw [hc] at hcomp
          cases c
          case obj cf =>
            simp only [Bool.and_eq_true] at hcomp
            obtain ⟨⟨⟨⟨⟨⟨⟨c1, c2⟩, c3⟩, c4⟩, c5⟩, c6⟩, c7⟩, c8⟩ := hcomp
            exact ⟨cf, rfl, c1, c2, c3, c4, c5, c6, c7, c8⟩
          all_goals exact absurd hcomp (by simp)
      obtain ⟨cf, hcf, hco, hno, hno2, ho3, hso2, hpm25, hpm10, hnh3⟩ := hCp
      obtain ⟨lb, hlb⟩ := aqiLabelLookup_ok _ hhash
      obtain ⟨qdt, hqdt⟩ := jToFloat_getD_num _ hdt
      simp only [format_air_quality_response]
      rw [show jTruthy (J.obj kvs) = true from by simp [jTruthy, hkvs]]
      simp only [Bool.not_true, Bool.false_eq_true, if_false]
      refine okStep (show jNotIn "list" (J.obj kvs) = .ok false from by
        simp [jNotIn, hl]) ?_
      simp only [Bool.false_eq_true, if_false]
      refine okStep (show jItemStr (J.obj kvs) "list" = .ok (J.arr (J.obj ef :: es))
        from by simp [jItemStr, hl]) ?_
      rw [show jTruthy (J.arr (J.obj ef :: es)) = true from rfl]
      simp only [Bool.not_true, Bool.false_eq_true, if_false]
      refine okStep (show jItemNat (J.arr (J.obj ef :: es)) 0 = .ok (J.obj ef)
        from rfl) ?_
      refine okStep (show jGetD (J.obj ef) "main" (J.obj []) = .ok (J.obj mfa) from by
        simp [jGetD, hmfa]) ?_
      refine okStep (show jGetD (J.obj ef) "components" (J.obj []) = .ok (J.obj cf)
        from by simp [jGetD, hcf]) ?_
      refine okStep (show jGetD (J.obj mfa) "aqi" (J.i 0) = .ok _ from rfl) ?_
      refine okStep hlb ?_
      refine okStep (show jGetD (J.obj ef) "dt" (J.i 0) = .ok _ from rfl) ?_
      refine okStep hqdt ?_
      refine okStepAll (comp2fOk cf "co" hco) (fun co => ?_)
      refine okStepAll (comp2fOk cf "no" hno) (fun no => ?_)
      refine okStepAll (comp2fOk cf "no2" hno2) (fun no2 => ?_)
      refine okStepAll (comp2fOk cf "o3" ho3) (fun o3 => ?_)
      refine okStepAll (comp2fOk cf "so2" hso2) (fun so2 => ?_)
      refine okStepAll (comp2fOk cf "pm2_5" hpm25) (fun pm25 => ?_)
      refine okStepAll (comp2fOk cf "pm10" hpm10) (fun pm10 => ?_)
      refine okStepAll (comp2fOk cf "nh3" hnh3) (fun nh3 => ?_)
      exact ⟨_, rfl⟩

/-- Claim **C9**: the three formatters are total on every payload whose present
fields are well-typed (absent fields take the `0`/`"Unknown"` defaults):
they return a string and never raise; `format_weather_response({}, "celsius")`
returns `"No weather data available."`; and an all-defaults payload renders
with `0` and `Unknown` substituted throughout. -/
theorem formatters_total_on_well_shaped_payloads :
    (∀ (flRepr : ℚ → String) (fmtTime : String → ℚ → String) (unit d : J),
        wsWeather d = true →
        ∃ s, format_weather_response flRepr fmtTime d unit = .ok s) ∧
    (∀ (flRepr : ℚ → String) (fmtTime : String → ℚ → String) (unit d : J),
        wsForecast d = true →
        ∃ s, format_forecast_response flRepr fmtTime d unit = .ok s) ∧
    (∀ (flRepr : ℚ → String) (fmtTime : String → ℚ → String) (d : J),
        wsAir d = true →
        ∃ s, format_air_quality_response flRepr fmtTime d = .ok s) ∧
    (∀ (flRepr : ℚ → String) (fmtTime : String → ℚ → String),
        format_weather_response flRepr fmtTime (J.obj []) (J.s "celsius") =
          .ok "No weather data available.") ∧
    format_weather_response (fun _ => "") (fun _ _ => "T")
        (J.obj [("main", J.obj [])]) (J.s "celsius") =
      .ok ("🌍 Weather for Unknown location\n📅 Time: T\n\n🌡️ Temperature: -273.1°C\n   Feels like: -273.1°C\n   Min: -273.1°C | Max: -273.1°C\n\n☁️ Condition: Unknown - No description\n💧 Humidity: 0%\n🎈 Pressure: 0 hPa\n💨 Wind: 0 m/s, direction 0°\n☁️ Cloudiness: 0%\n\n" ++ rateLimitWarning) :=
  ⟨fun flRepr fmtTime unit d h => format_weather_response_total flRepr fmtTime unit d h,
   fun flRepr fmtTime unit d h => format_forecast_response_total flRepr fmtTime unit d h,
   fun flRepr fmtTime d h => format_air_quality_response_total flRepr fmtTime d h,
   fun _ _ => rfl,
   by with_unfolding_all rfl⟩

/-- Witness for C9 at concrete well-shaped payloads. -/
theorem formatters_total_on_well_shaped_payloads_witness :
    (∃ s, format_weather_response (fun _ => "") (fun _ _ => "T")
        (J.obj [("main", J.obj [("temp", J.f (roundToF64 (28315 / 100)))]),
          ("rain", J.obj [])]) (J.s "celsius") = .ok s) ∧
    (∃ s, format_forecast_response (fun _ => "") (fun _ _ => "T")
        (J.obj [("list", J.arr [J.obj []])]) (J.s "celsius") = .ok s) ∧
    (∃ s, format_air_quality_response (fun _ => "") (fun _ _ => "T")
        (J.obj [("list", J.arr [J.obj []])]) = .ok s) :=
  ⟨formatters_total_on_well_shaped_payloads.1 _ _ _ _ (by with_unfolding_all rfl),
   formatters_total_on_well_shaped_payloads.2.1 _ _ _ _ (by with_unfolding_all rfl),
   formatters_total_on_well_shaped_payloads.2.2.1 _ _ _ (by with_unfolding_all rfl)⟩

end WeatherMCP
